import Mathlib

/-!
Verification development for the ASTC multi-agent demo backend.

This file gives a shallow embedding, in Lean 4, of the three core components
of the repository:

* the message router of backend/framework/communication.py
  (MessageRouter.send_message and its expiry check),
* the agent activity monitor of backend/framework/agent_monitor.py
  (registration and the logging operations), and
* the test-execution simulator of backend/agents/test_execution.py
  (execution creation, the step loop with failure injection and
  auto-healing, finalization, the wait queue, and cancellation).

Modelling conventions:

* Python floats are modelled as exact fractions (structure PyFloat below,
  an integer numerator over a natural denominator, compared by
  cross-multiplication).  All float constants in the source are decimal
  literals, so this is exact; a bridge PyFloat.toRat relates the
  executable comparisons to rational-number semantics.
* Python dicts keyed by strings are association lists with Python's
  insertion-order update semantics (dict_insert replaces in place).
* datetime.now() is an abstract, strictly increasing integer clock carried
  in a context (SimCtx); isoformat timestamps are modelled by the tick.
* random.random() draws are an abstract stream of PyFloat values carried in
  the same context; random.randint draws (a different entropy source in
  CPython) are a separate stream of naturals.
* Handlers registered with the router are modelled as functions returning
  either a truthiness value or a raised exception (HandlerOutcome), and
  send_message additionally records which handler, if any, was invoked.
-/

/-- Exact model of a Python float value: an integer numerator over a natural
denominator.  No normalisation is performed; comparisons cross-multiply. -/
structure PyFloat where
  num : Int
  den : Nat
deriving DecidableEq, Repr

/-- Shorthand constructor for float literals, e.g. 0.15 is pf 15 100. -/
def pf (n : Int) (d : Nat) : PyFloat := ⟨n, d⟩

def PyFloat.ofNat (n : Nat) : PyFloat := ⟨(n : Int), 1⟩

def PyFloat.add (a b : PyFloat) : PyFloat :=
  ⟨a.num * (b.den : Int) + b.num * (a.den : Int), a.den * b.den⟩

def PyFloat.sub (a b : PyFloat) : PyFloat :=
  ⟨a.num * (b.den : Int) - b.num * (a.den : Int), a.den * b.den⟩

def PyFloat.mul (a b : PyFloat) : PyFloat :=
  ⟨a.num * b.num, a.den * b.den⟩

/-- Float division.  All divisors in the modelled code are positive. -/
def PyFloat.div (a b : PyFloat) : PyFloat :=
  if 0 ≤ b.num then ⟨a.num * (b.den : Int), a.den * b.num.toNat⟩
  else ⟨-(a.num * (b.den : Int)), a.den * (-b.num).toNat⟩

/-- Strict comparison by cross-multiplication (faithful for positive
denominators, which all constants in the source have). -/
def PyFloat.lt (a b : PyFloat) : Bool :=
  a.num * (b.den : Int) < b.num * (a.den : Int)

def PyFloat.le (a b : PyFloat) : Bool :=
  a.num * (b.den : Int) ≤ b.num * (a.den : Int)

/-- Python int() truncation toward zero. -/
def pyTrunc (a : PyFloat) : Int := Int.tdiv a.num (a.den : Int)

/-- The rational number denoted by a PyFloat. -/
def PyFloat.toRat (a : PyFloat) : Rat := (a.num : Rat) / (a.den : Rat)

/-- random.uniform(a, b) at an underlying random.random() draw u. -/
def pyUniform (a b u : PyFloat) : PyFloat := a.add ((b.sub a).mul u)

theorem PyFloat.lt_iff_toRat (a b : PyFloat) (ha : 0 < a.den) (hb : 0 < b.den) :
    a.lt b = true ↔ a.toRat < b.toRat := by
  unfold PyFloat.lt PyFloat.toRat
  rw [div_lt_div_iff₀ (by exact_mod_cast ha) (by exact_mod_cast hb)]
  rw [decide_eq_true_iff]
  constructor
  · intro h; exact_mod_cast h
  · intro h; exact_mod_cast h

theorem PyFloat.mul_toRat (a b : PyFloat) :
    (a.mul b).toRat = a.toRat * b.toRat := by
  unfold PyFloat.mul PyFloat.toRat
  push_cast
  rw [div_mul_div_comm]

theorem PyFloat.add_toRat (a b : PyFloat) (ha : a.den ≠ 0) (hb : b.den ≠ 0) :
    (a.add b).toRat = a.toRat + b.toRat := by
  unfold PyFloat.add PyFloat.toRat
  rw [div_add_div _ _ (by exact_mod_cast ha) (by exact_mod_cast hb)]
  push_cast
  ring_nf

theorem PyFloat.div_ofNat_toRat (a : PyFloat) (n : Nat) :
    (a.div (PyFloat.ofNat n)).toRat = a.toRat / (n : Rat) := by
  unfold PyFloat.div PyFloat.ofNat PyFloat.toRat
  simp only [Int.toNat_ofNat]
  rw [if_pos (by exact_mod_cast Nat.zero_le n)]
  push_cast
  rw [div_div, mul_one]

/-- Association-list model of a Python dict keyed by strings: lookup. -/
def dict_lookup {α : Type} : List (String × α) → String → Option α
  | [], _ => none
  | (k, v) :: rest, key => if k = key then some v else dict_lookup rest key

/-- Dict assignment d[k] = v: replaces in place, else appends (Python
dicts preserve insertion order). -/
def dict_insert {α : Type} : List (String × α) → String → α → List (String × α)
  | [], key, v => [(key, v)]
  | (k, w) :: rest, key, v =>
    if k = key then (key, v) :: rest else (k, w) :: dict_insert rest key v

/-- Dict deletion del d[k] (keys are unique by construction, so removing
the first occurrence models deletion; in all reachable states the deleted
key is present). -/
def dict_erase {α : Type} : List (String × α) → String → List (String × α)
  | [], _ => []
  | (k, v) :: rest, key =>
    if k = key then rest else (k, v) :: dict_erase rest key

/-! ## Message router (backend/framework/communication.py) -/

inductive MessageType where
  | request | response | notification | broadcast | error_
deriving DecidableEq, Repr

inductive Priority where
  | low | medium | high | critical
deriving DecidableEq, Repr

/-- AgentMessage dataclass.  The payload is opaque structured data; it is
modelled as a string-keyed association list of strings. -/
structure AgentMessage where
  message_id : String
  from_agent : String
  to_agent : String
  message_type : MessageType
  priority : Priority
  timestamp : String
  payload : List (String × String)
  correlation_id : Option String := none
  reply_to : Option String := none
  expires_at : Option String := none
deriving DecidableEq, Repr

/-- Outcome of calling a registered delivery handler: either it returns a
value (recorded by its Python truthiness) or it raises an exception. -/
inductive HandlerOutcome where
  | ok (truthy : Bool)
  | raises (message : String)
deriving DecidableEq, Repr

def Handler : Type := AgentMessage → HandlerOutcome

/-- MessageRouter state.  delivery_stats is the dict with the four fixed
keys sent/delivered/failed/expired. -/
structure MessageRouter where
  message_queue : List AgentMessage := []
  delivery_handlers : List (String × Handler) := []
  subscription_patterns : List (String × List String) := []
  message_history : List AgentMessage := []
  stats_sent : Nat := 0
  stats_delivered : Nat := 0
  stats_failed : Nat := 0
  stats_expired : Nat := 0

/-- MessageRouter._is_expired.  datetime.fromisoformat is abstracted as a
parse function returning an integer time point or a parse failure; a parse
failure (the bare except) yields False.  Python treats both None and the
empty string as a falsy expires_at. -/
def is_expired (parse : String → Option Int) (now : Int) (m : AgentMessage) : Bool :=
  match m.expires_at with
  | none => false
  | some s =>
    if s = "" then false
    else
      let z : String := "Z"
      let repl : String := "+00:00"
      match parse (s.replace z repl) with
      | some t => now > t
      | none => false

/-- MessageRouter._add_to_history: append, keeping only the last 1000. -/
def add_to_history (r : MessageRouter) (m : AgentMessage) : MessageRouter :=
  let h := r.message_history ++ [m]
  { r with message_history := if 1000 < h.length then h.drop (h.length - 1000) else h }

/-- Result of send_message: the updated router, the returned boolean, and
(instrumentation for the proofs) the id of the agent whose handler was
invoked, if any. -/
structure SendOutcome where
  router : MessageRouter
  returned : Bool
  handler_invoked : Option String

/-- The non-expired tail of MessageRouter.send_message: deliver to the
target agent's registered handler.  A handler exception is caught by the
surrounding try of send_message and counted as failed. -/
def deliver_message (r : MessageRouter) (m : AgentMessage) : SendOutcome :=
  match dict_lookup r.delivery_handlers m.to_agent with
  | some handler =>
    match handler m with
    | .ok true => ⟨{ r with stats_delivered := r.stats_delivered + 1 }, true, some m.to_agent⟩
    | .ok false => ⟨{ r with stats_failed := r.stats_failed + 1 }, false, some m.to_agent⟩
    | .raises _ => ⟨{ r with stats_failed := r.stats_failed + 1 }, false, some m.to_agent⟩
  | none => ⟨{ r with stats_failed := r.stats_failed + 1 }, false, none⟩

/-- MessageRouter.send_message. -/
def send_message (parse : String → Option Int) (now : Int)
    (r : MessageRouter) (m : AgentMessage) : SendOutcome :=
  if is_expired parse now m then
    ⟨{ r with stats_expired := r.stats_expired + 1 }, false, none⟩
  else
    deliver_message (add_to_history r m) m

/-- Claim C6: a message whose expires_at lies in the past at send time is
dropped: send_message returns false, increments the expired counter, and
invokes no handler (nor does it touch the history or the other counters:
the result router differs from the input only in the expired counter). -/
theorem send_message_expired_is_dropped (parse : String → Option Int) (now : Int)
    (r : MessageRouter) (m : AgentMessage) (h : is_expired parse now m = true) :
    send_message parse now r m =
      ⟨{ r with stats_expired := r.stats_expired + 1 }, false, none⟩ := by
  unfold send_message
  rw [h]
  simp

def c6_parse : String → Option Int := fun _ => some 0

def c6_msg : AgentMessage :=
  { message_id := "m1", from_agent := "a", to_agent := "b",
    message_type := .request, priority := .medium, timestamp := "t0",
    payload := [], expires_at := some "t-past" }

def c6_router : MessageRouter := {}

/-- Witness for C6 at a concrete expired message. -/
theorem send_message_expired_is_dropped_witness :
    is_expired c6_parse 5 c6_msg = true ∧
      send_message c6_parse 5 c6_router c6_msg =
        ⟨{ c6_router with stats_expired := c6_router.stats_expired + 1 }, false, none⟩ :=
  ⟨by decide, send_message_expired_is_dropped c6_parse 5 c6_router c6_msg (by decide)⟩

/-- Claim C7: for a non-expired message, (i) if no handler is registered
for the recipient, no handler is invoked, the failed counter is
incremented and false is returned; (ii) if the registered handler raises,
the exception does not propagate (send_message still returns a value): it
is caught, the failed counter is incremented and false is returned.  In
both cases the message is first appended to the history. -/
theorem send_message_failure_handling (parse : String → Option Int) (now : Int)
    (r : MessageRouter) (m : AgentMessage) (h : is_expired parse now m = false) :
    (dict_lookup r.delivery_handlers m.to_agent = none →
      send_message parse now r m =
        ⟨{ add_to_history r m with stats_failed := r.stats_failed + 1 }, false, none⟩)
    ∧ (∀ (hd : Handler) (emsg : String),
        dict_lookup r.delivery_handlers m.to_agent = some hd →
        hd m = .raises emsg →
        send_message parse now r m =
          ⟨{ add_to_history r m with stats_failed := r.stats_failed + 1 },
            false, some m.to_agent⟩) := by
  have hh : dict_lookup (add_to_history r m).delivery_handlers m.to_agent =
      dict_lookup r.delivery_handlers m.to_agent := rfl
  constructor
  · intro hnone
    unfold send_message deliver_message
    rw [h, hh, hnone]
    simp only [Bool.false_eq_true, if_false]
    rfl
  · intro hd emsg hsome hraise
    unfold send_message deliver_message
    rw [h, hh, hsome]
    simp only [hraise, Bool.false_eq_true, if_false]
    rfl

def c7_parse : String → Option Int := fun _ => none

def c7_msg_unrouted : AgentMessage :=
  { message_id := "m2", from_agent := "a", to_agent := "ghost",
    message_type := .request, priority := .medium, timestamp := "t0",
    payload := [] }

def c7_raising_handler : Handler := fun _ => .raises ("boom")

def c7_msg_routed : AgentMessage :=
  { message_id := "m3", from_agent := "a", to_agent := "b",
    message_type := .request, priority := .medium, timestamp := "t0",
    payload := [] }

def c7_router : MessageRouter :=
  { delivery_handlers := [("b", c7_raising_handler)] }

/-- Witness for C7: one application for the unknown-recipient case and one
for the raising-handler case. -/
theorem send_message_failure_handling_witness :
    (send_message c7_parse 0 c7_router c7_msg_unrouted =
      ⟨{ add_to_history c7_router c7_msg_unrouted with
          stats_failed := c7_router.stats_failed + 1 }, false, none⟩)
    ∧ (send_message c7_parse 0 c7_router c7_msg_routed =
      ⟨{ add_to_history c7_router c7_msg_routed with
          stats_failed := c7_router.stats_failed + 1 }, false,
        some c7_msg_routed.to_agent⟩) :=
  ⟨(send_message_failure_handling c7_parse 0 c7_router c7_msg_unrouted (by decide)).1
      rfl,
   (send_message_failure_handling c7_parse 0 c7_router c7_msg_routed (by decide)).2
      c7_raising_handler ("boom") rfl rfl⟩

theorem deliver_message_preserves_history (r : MessageRouter) (m : AgentMessage) :
    (deliver_message r m).router.message_history = r.message_history := by
  unfold deliver_message
  split
  · split <;> rfl
  · rfl

/-- Claim C10: a set but unparseable expires_at string is treated as not
expired (the parse error is swallowed by _is_expired), so send_message
records the message in the history and proceeds with normal delivery
instead of dropping it (in particular, a registered recipient handler is
invoked). -/
theorem unparseable_expiry_not_dropped (parse : String → Option Int) (now : Int)
    (r : MessageRouter) (m : AgentMessage) (s : String)
    (h1 : m.expires_at = some s) (h2 : s ≠ "")
    (h3 : parse (s.replace ("Z") ("+00:00")) = none) :
    is_expired parse now m = false
    ∧ send_message parse now r m = deliver_message (add_to_history r m) m
    ∧ (send_message parse now r m).router.message_history =
        (add_to_history r m).message_history
    ∧ (∀ hd : Handler, dict_lookup r.delivery_handlers m.to_agent = some hd →
        (send_message parse now r m).handler_invoked = some m.to_agent) := by
  have hexp : is_expired parse now m = false := by
    unfold is_expired
    rw [h1]
    simp only [if_neg h2]
    rw [h3]
  have hsend : send_message parse now r m = deliver_message (add_to_history r m) m := by
    unfold send_message
    rw [hexp]
    simp
  refine ⟨hexp, hsend, by rw [hsend]; exact deliver_message_preserves_history _ _, ?_⟩
  · intro hd hsome
    rw [hsend]
    unfold deliver_message
    rw [show dict_lookup (add_to_history r m).delivery_handlers m.to_agent =
          dict_lookup r.delivery_handlers m.to_agent from rfl, hsome]
    rcases hout : hd m with b | e
    · cases b <;> simp only [hout]
    · simp only [hout]

def c10_msg : AgentMessage :=
  { message_id := "m4", from_agent := "a", to_agent := "b",
    message_type := .request, priority := .medium, timestamp := "t0",
    payload := [], expires_at := some "not-a-timestamp" }

/-- Witness for C10 at a concrete message whose expiry string no parse
accepts. -/
theorem unparseable_expiry_not_dropped_witness :
    is_expired c7_parse 99 c10_msg = false
    ∧ send_message c7_parse 99 c7_router c10_msg =
        deliver_message (add_to_history c7_router c10_msg) c10_msg
    ∧ (send_message c7_parse 99 c7_router c10_msg).router.message_history =
        (add_to_history c7_router c10_msg).message_history
    ∧ (∀ hd : Handler, dict_lookup c7_router.delivery_handlers c10_msg.to_agent = some hd →
        (send_message c7_parse 99 c7_router c10_msg).handler_invoked =
          some c10_msg.to_agent) :=
  unparseable_expiry_not_dropped c7_parse 99 c7_router c10_msg ("not-a-timestamp")
    rfl (by decide) rfl

/-! ## Agent activity monitor (backend/framework/agent_monitor.py)

All monitor operations run under a single re-entrant lock in the source, so
each operation is modelled as an atomic total function on the monitor state.
The _get_timestamp() calls inside one operation are modelled by a single
abstract tick ts (timestamps only ever flow into record fields).  The
free-form details dict of an activity, the WebSocket broadcasting (a no-op
without clients) and the cosmetic threading.Timer return-to-idle are not
modelled; no claim mentions them. -/

inductive AgentState where
  | idle | processing | waiting | complete | error | communicating
deriving DecidableEq, Repr

/-- AgentActivity record (details dict omitted, see section comment). -/
structure AgentActivity where
  agent_id : String
  timestamp : Nat
  activity_type : String
  state : AgentState
  message_id : Option String := none
  target_agent : Option String := none
  processing_time : Option PyFloat := none
deriving DecidableEq, Repr

structure MessageFlow where
  message_id : String
  from_agent : String
  to_agent : String
  message_type : String
  timestamp : Nat
  direction : String
  payload_size : Nat
  processing_time : Option PyFloat := none
deriving DecidableEq, Repr

/-- AgentMetrics dataclass (active_collaborations set as a dedup list). -/
structure AgentMetrics where
  agent_id : String
  total_messages_sent : Nat := 0
  total_messages_received : Nat := 0
  average_processing_time : PyFloat := pf 0 1
  current_state : AgentState := .idle
  last_activity : Option Nat := none
  active_collaborations : List String := []
  error_count : Nat := 0
deriving DecidableEq, Repr

/-- AgentMonitor state (workflow map and websocket clients omitted; no
claim touches them). -/
structure AgentMonitor where
  max_history_size : Nat := 1000
  activity_history : List AgentActivity := []
  message_flows : List MessageFlow := []
  agent_states : List (String × AgentState) := []
  agent_metrics : List (String × AgentMetrics) := []
  agent_relationships : List (String × List String) := []
deriving DecidableEq, Repr

/-- deque(maxlen=cap).append: append, evicting the oldest beyond cap. -/
def deque_append {α : Type} (cap : Nat) (xs : List α) (x : α) : List α :=
  let ys := xs ++ [x]
  if cap < ys.length then ys.drop (ys.length - cap) else ys

/-- Python set.add on the insertion-ordered list model of a set. -/
def set_add (xs : List String) (x : String) : List String :=
  if x ∈ xs then xs else xs ++ [x]

/-- defaultdict(set)[k].add(x). -/
def rel_add (rels : List (String × List String)) (k x : String) :
    List (String × List String) :=
  match dict_lookup rels k with
  | some s => dict_insert rels k (set_add s x)
  | none => rels ++ [(k, set_add [] x)]

/-- In-place mutation of the metrics record for a key known to be present
(no-op when absent, which never happens at the modelled call sites). -/
def metrics_update (mon : AgentMonitor) (aid : String)
    (f : AgentMetrics → AgentMetrics) : AgentMonitor :=
  match dict_lookup mon.agent_metrics aid with
  | some mt => { mon with agent_metrics := dict_insert mon.agent_metrics aid (f mt) }
  | none => mon

/-- AgentMonitor._update_agent_state: always writes the state map; updates
the metrics record's mirrored state and last_activity only when the record
already exists. -/
def update_agent_state (mon : AgentMonitor) (aid : String) (new_state : AgentState)
    (ts : Nat) : AgentMonitor :=
  let mon1 := { mon with agent_states := dict_insert mon.agent_states aid new_state }
  metrics_update mon1 aid fun mt =>
    { mt with current_state := new_state, last_activity := some ts }

/-- AgentMonitor.register_agent. -/
def register_agent (mon : AgentMonitor) (aid : String) (ts : Nat) : AgentMonitor :=
  let mon1 := { mon with agent_states := dict_insert mon.agent_states aid .idle }
  let mon2 := { mon1 with agent_metrics := dict_insert mon1.agent_metrics aid ({ agent_id := aid }) }
  let act : AgentActivity :=
    { agent_id := aid, timestamp := ts, activity_type := "agent_registered", state := .idle }
  { mon2 with activity_history := deque_append mon2.max_history_size mon2.activity_history act }

/-- AgentMonitor.log_message_sent. -/
def log_message_sent (mon : AgentMonitor) (from_agent to_agent message_id message_type : String)
    (payload_size : Nat) (ts : Nat) : AgentMonitor :=
  let mon1 := update_agent_state mon from_agent .communicating ts
  let flow : MessageFlow :=
    { message_id := message_id, from_agent := from_agent, to_agent := to_agent,
      message_type := message_type, timestamp := ts, direction := "outgoing",
      payload_size := payload_size }
  let mon2 := { mon1 with message_flows := deque_append mon1.max_history_size mon1.message_flows flow }
  let mon3 :=
    if (dict_lookup mon2.agent_metrics from_agent).isSome then mon2
    else { mon2 with agent_metrics := dict_insert mon2.agent_metrics from_agent ({ agent_id := from_agent }) }
  let mon4 := metrics_update mon3 from_agent fun mt =>
    { mt with total_messages_sent := mt.total_messages_sent + 1 }
  let rels := rel_add (rel_add mon4.agent_relationships from_agent to_agent) to_agent from_agent
  let mon5 := { mon4 with agent_relationships := rels }
  let act : AgentActivity :=
    { agent_id := from_agent, timestamp := ts, activity_type := "message_sent",
      state := .communicating, message_id := some message_id, target_agent := some to_agent }
  { mon5 with activity_history := deque_append mon5.max_history_size mon5.activity_history act }

/-- AgentMonitor.log_message_received. -/
def log_message_received (mon : AgentMonitor) (to_agent from_agent message_id message_type : String)
    (payload_size : Nat) (ts : Nat) : AgentMonitor :=
  let mon1 := update_agent_state mon to_agent .processing ts
  let mon2 :=
    if (dict_lookup mon1.agent_metrics to_agent).isSome then mon1
    else { mon1 with agent_metrics := dict_insert mon1.agent_metrics to_agent ({ agent_id := to_agent }) }
  let mon3 := metrics_update mon2 to_agent fun mt =>
    { mt with total_messages_received := mt.total_messages_received + 1 }
  let act : AgentActivity :=
    { agent_id := to_agent, timestamp := ts, activity_type := "message_received",
      state := .processing, message_id := some message_id, target_agent := some from_agent }
  { mon3 with activity_history := deque_append mon3.max_history_size mon3.activity_history act }

/-- AgentMonitor.log_processing_complete: the running-average update.  Note
that the branch on the message count and the whole metrics rewrite happen
only when a metrics record exists for the agent. -/
def log_processing_complete (mon : AgentMonitor) (aid task_type : String)
    (processing_time : PyFloat) (ts : Nat) : AgentMonitor :=
  let mon1 := update_agent_state mon aid .complete ts
  let mon2 :=
    match dict_lookup mon1.agent_metrics aid with
    | some mt =>
      let count := mt.total_messages_sent + mt.total_messages_received
      let new_avg :=
        if 0 < count then
          ((mt.average_processing_time.mul (PyFloat.ofNat (count - 1))).add
            processing_time).div (PyFloat.ofNat count)
        else processing_time
      let mt1 : AgentMetrics := { mt with average_processing_time := new_avg }
      { mon1 with agent_metrics := dict_insert mon1.agent_metrics aid mt1 }
    | none => mon1
  let act : AgentActivity :=
    { agent_id := aid, timestamp := ts, activity_type := "processing_complete",
      state := .complete, processing_time := some processing_time }
  { mon2 with activity_history := deque_append mon2.max_history_size mon2.activity_history act }

theorem dict_lookup_insert {α : Type} (l : List (String × α)) (k : String) (v : α) :
    dict_lookup (dict_insert l k v) k = some v := by
  induction l with
  | nil => simp [dict_insert, dict_lookup]
  | cons hd tl ih =>
    obtain ⟨k', w⟩ := hd
    by_cases hk : k' = k
    · simp [dict_insert, dict_lookup, hk]
    · simp [dict_insert, dict_lookup, hk, ih]

theorem PyFloat.ofNat_toRat (n : Nat) : (PyFloat.ofNat n).toRat = (n : Rat) := by
  unfold PyFloat.ofNat PyFloat.toRat
  push_cast
  simp

/-- Claim C8: when log_processing_complete runs for an agent that has a
metrics record, with n the agent's total sent+received message count at
the time of the call, the stored average becomes exactly
(prev_avg * (n - 1) + processing_time) / n when n is positive, and becomes
processing_time itself when n is zero.  The equalities for positive n are
stated over the rational values of the stored Python floats. -/
theorem log_processing_complete_running_average
    (mon : AgentMonitor) (aid task_type : String) (pt : PyFloat) (ts : Nat)
    (mt : AgentMetrics)
    (hmt : dict_lookup mon.agent_metrics aid = some mt)
    (havg : mt.average_processing_time.den ≠ 0) (hpt : pt.den ≠ 0) :
    (0 < mt.total_messages_sent + mt.total_messages_received →
      Option.map (fun m => m.average_processing_time.toRat)
          (dict_lookup (log_processing_complete mon aid task_type pt ts).agent_metrics aid)
        = some ((mt.average_processing_time.toRat *
              ((mt.total_messages_sent + mt.total_messages_received : Nat) - 1 : Rat)
            + pt.toRat)
            / ((mt.total_messages_sent + mt.total_messages_received : Nat) : Rat)))
    ∧ (mt.total_messages_sent + mt.total_messages_received = 0 →
      Option.map (fun m => m.average_processing_time)
          (dict_lookup (log_processing_complete mon aid task_type pt ts).agent_metrics aid)
        = some pt) := by
  have h1 : dict_lookup (update_agent_state mon aid .complete ts).agent_metrics aid
      = some { mt with current_state := .complete, last_activity := some ts } := by
    unfold update_agent_state metrics_update
    simp only [show dict_lookup
        ({ mon with agent_states := dict_insert mon.agent_states aid .complete } :
          AgentMonitor).agent_metrics aid = dict_lookup mon.agent_metrics aid from rfl, hmt]
    exact dict_lookup_insert _ _ _
  constructor
  · intro hn
    unfold log_processing_complete
    simp only [h1]
    rw [if_pos hn]
    simp only [dict_lookup_insert, Option.map_some, Option.map_some', Option.some.injEq]
    rw [PyFloat.div_ofNat_toRat, PyFloat.add_toRat _ _ (by simpa [PyFloat.mul, PyFloat.ofNat] using havg) hpt,
      PyFloat.mul_toRat, PyFloat.ofNat_toRat]
    rw [Nat.cast_sub (by omega)]
    norm_num
  · intro hn
    unfold log_processing_complete
    simp only [h1]
    rw [if_neg (by omega)]
    simp only [dict_lookup_insert, Option.map_some, Option.map_some']

def c8_metrics : AgentMetrics :=
  { agent_id := "a", total_messages_sent := 2, total_messages_received := 1,
    average_processing_time := pf 4 1 }

def c8_monitor : AgentMonitor := { agent_metrics := [("a", c8_metrics)] }

/-- Witness for C8 at a concrete monitor with count 3. -/
theorem log_processing_complete_running_average_witness :
    (0 < c8_metrics.total_messages_sent + c8_metrics.total_messages_received →
      Option.map (fun m => m.average_processing_time.toRat)
          (dict_lookup (log_processing_complete c8_monitor ("a") ("t") (pf 7 1) 1).agent_metrics ("a"))
        = some ((c8_metrics.average_processing_time.toRat *
              ((c8_metrics.total_messages_sent + c8_metrics.total_messages_received : Nat) - 1 : Rat)
            + (pf 7 1).toRat)
            / ((c8_metrics.total_messages_sent + c8_metrics.total_messages_received : Nat) : Rat)))
    ∧ (c8_metrics.total_messages_sent + c8_metrics.total_messages_received = 0 →
      Option.map (fun m => m.average_processing_time)
          (dict_lookup (log_processing_complete c8_monitor ("a") ("t") (pf 7 1) 1).agent_metrics ("a"))
        = some (pf 7 1)) :=
  log_processing_complete_running_average c8_monitor ("a") ("t") (pf 7 1) 1 c8_metrics
    (by decide) (by decide) (by decide)

/-- Claim C9: the logging operations are total even for agent ids that were
never registered: with no existing metrics record, log_message_sent and
log_message_received create a fresh AgentMetrics record on demand, set its
sent (resp. received) counter to one, and record the agent's new state
(communicating resp. processing) in the monitor's state map.  Totality --
logging never raises -- holds by construction: every dict and list
operation of the source is transcribed by a total function. -/
theorem monitor_logging_total_for_unknown_agents
    (mon : AgentMonitor) (aid other mid mtype : String) (psize ts : Nat)
    (h : dict_lookup mon.agent_metrics aid = none) :
    (Option.map (fun mt => (mt.total_messages_sent, mt.total_messages_received))
        (dict_lookup (log_message_sent mon aid other mid mtype psize ts).agent_metrics aid)
      = some (1, 0))
    ∧ dict_lookup (log_message_sent mon aid other mid mtype psize ts).agent_states aid
        = some .communicating
    ∧ (Option.map (fun mt => (mt.total_messages_sent, mt.total_messages_received))
        (dict_lookup (log_message_received mon aid other mid mtype psize ts).agent_metrics aid)
      = some (0, 1))
    ∧ dict_lookup (log_message_received mon aid other mid mtype psize ts).agent_states aid
        = some .processing := by
  have hmetr : ∀ s : AgentState,
      (update_agent_state mon aid s ts).agent_metrics = mon.agent_metrics := by
    intro s
    unfold update_agent_state metrics_update
    simp only [h]
  have hstates : ∀ s : AgentState,
      (update_agent_state mon aid s ts).agent_states
        = dict_insert mon.agent_states aid s := by
    intro s
    unfold update_agent_state metrics_update
    simp only [h]
  refine ⟨?_, ?_, ?_, ?_⟩
  · unfold log_message_sent metrics_update
    simp [hmetr, h, dict_lookup_insert]
  · unfold log_message_sent metrics_update
    simp [hmetr, hstates, h, dict_lookup_insert]
  · unfold log_message_received metrics_update
    simp [hmetr, h, dict_lookup_insert]
  · unfold log_message_received metrics_update
    simp [hmetr, hstates, h, dict_lookup_insert]

/-- Witness for C9 on the empty monitor (no agent ever registered). -/
theorem monitor_logging_total_for_unknown_agents_witness :
    (Option.map (fun mt => (mt.total_messages_sent, mt.total_messages_received))
        (dict_lookup (log_message_sent {} ("a") ("b") ("m") ("req") 3 1).agent_metrics ("a"))
      = some (1, 0))
    ∧ dict_lookup (log_message_sent {} ("a") ("b") ("m") ("req") 3 1).agent_states ("a")
        = some .communicating
    ∧ (Option.map (fun mt => (mt.total_messages_sent, mt.total_messages_received))
        (dict_lookup (log_message_received {} ("a") ("b") ("m") ("req") 3 1).agent_metrics ("a"))
      = some (0, 1))
    ∧ dict_lookup (log_message_received {} ("a") ("b") ("m") ("req") 3 1).agent_states ("a")
        = some .processing :=
  monitor_logging_total_for_unknown_agents {} ("a") ("b") ("m") ("req") 3 1 (by decide)

/-! ## Test execution simulator (backend/agents/test_execution.py)

The agent is driven synchronously: the HTTP server is single-threaded and
the simulated step delay is a blocking sleep, so every agent operation
(submit a suite, submit a single test, cancel, query) runs to completion
before the next one starts.  Each operation is therefore modelled as an
atomic total function on the agent state.  The environment dict of a
TestExecution is a constant and is omitted.  datetime.now() is the tick
clock of SimCtx; random.random() and random.randint draw from the two
abstract streams of SimCtx. -/

inductive ExecutionStatus where
  | queued | running | completed | failed | cancelled
deriving DecidableEq, Repr

inductive TestResult where
  | passed | failed | skipped | error
deriving DecidableEq, Repr

structure ExecutionStep where
  step_number : Nat
  description : String
  status : String
  start_time : Option Nat := none
  end_time : Option Nat := none
  duration_ms : Option Int := none
  details : Option String := none
  error_message : Option String := none
  error_code : Option String := none
  screenshot : Option String := none
deriving DecidableEq, Repr

structure Validation where
  validation : String
  expected : String
  actual : String
  status : String
deriving DecidableEq, Repr

structure PerformanceMetrics where
  total_duration : PyFloat
  response_time_avg : Int
  response_time_max : Int
  response_time_min : Int
  cpu_usage_avg : PyFloat
  memory_usage_mb : Nat
  network_latency_ms : Nat
deriving DecidableEq, Repr

structure HealingRecommendation where
  action : String
  priority : String
  estimated_fix_time : String
  automation_available : Bool
deriving DecidableEq, Repr

structure HealingResult where
  success : Bool
  action : String
  pattern : String
  analysis : String
  root_cause : String
  auto_retry_attempted : Bool
  auto_retry_result : String
  auto_retry_details : String
  recommendations : List HealingRecommendation
deriving DecidableEq, Repr

structure TestExecution where
  execution_id : String
  test_case_id : String
  test_name : String
  transaction : String
  status : ExecutionStatus
  result : Option TestResult
  start_time : Nat
  end_time : Option Nat := none
  duration_seconds : Option PyFloat := none
  current_step : Nat := 0
  total_steps : Nat := 0
  execution_steps : List ExecutionStep := []
  performance_metrics : Option PerformanceMetrics := none
  validations : List Validation := []
  auto_healing : Option HealingResult := none
deriving DecidableEq, Repr

structure Strategy where
  action : String
  success_rate : PyFloat
deriving DecidableEq, Repr

structure ErrorPatternInfo where
  description : String
  frequency : PyFloat
  healing_strategies : List Strategy
deriving DecidableEq, Repr

/-- The dict returned by _generate_step_error. -/
structure StepError where
  code : String
  message : String
  details : String
  pattern : String
deriving DecidableEq, Repr

/-- The fields of a test-case dict that the agent reads. -/
structure TestCase where
  transaction_code : Option String := none
  transaction : Option String := none
  test_id : Option String := none
  id : Option String := none
  name : Option String := none
deriving DecidableEq, Repr

structure Complexity where
  base_time : PyFloat
  complexity : String
  failure_rate : PyFloat
deriving DecidableEq, Repr

structure TestExecutionAgentState where
  active_executions : List (String × TestExecution) := []
  execution_queue : List String := []
  execution_history : List TestExecution := []
  max_concurrent_executions : Nat := 3
deriving DecidableEq, Repr

/-- Abstract context: the random.random() stream (draws), the
random.randint stream (nat_draws), and the datetime.now() tick clock. -/
structure SimCtx where
  draws : Nat → PyFloat
  didx : Nat := 0
  nat_draws : Nat → Nat
  nidx : Nat := 0
  clock : Nat := 0

def SimCtx.draw (ctx : SimCtx) : PyFloat × SimCtx :=
  (ctx.draws ctx.didx, { ctx with didx := ctx.didx + 1 })

def SimCtx.now (ctx : SimCtx) : Nat × SimCtx :=
  (ctx.clock, { ctx with clock := ctx.clock + 1 })

def SimCtx.randint (ctx : SimCtx) (lo hi : Nat) : Nat × SimCtx :=
  (lo + ctx.nat_draws ctx.nidx % (hi + 1 - lo), { ctx with nidx := ctx.nidx + 1 })

def sap_transaction_complexity : List (String × Complexity) :=
  [("ME21N", { base_time := pf 45 1, complexity := "medium", failure_rate := pf 15 100 }),
   ("MIGO", { base_time := pf 30 1, complexity := "low", failure_rate := pf 8 100 }),
   ("VA01", { base_time := pf 60 1, complexity := "high", failure_rate := pf 22 100 }),
   ("FB60", { base_time := pf 40 1, complexity := "medium", failure_rate := pf 12 100 }),
   ("ME28", { base_time := pf 25 1, complexity := "low", failure_rate := pf 5 100 }),
   ("MIRO", { base_time := pf 50 1, complexity := "high", failure_rate := pf 18 100 }),
   ("VF01", { base_time := pf 35 1, complexity := "medium", failure_rate := pf 10 100 }),
   ("VL01N", { base_time := pf 55 1, complexity := "high", failure_rate := pf 20 100 })]

def error_patterns : List (String × ErrorPatternInfo) :=
  [("approval_timeout",
    { description := "Workflow approval timeout", frequency := pf 35 100,
      healing_strategies :=
        [{ action := "retry_with_alternative_approver", success_rate := pf 85 100 },
         { action := "extend_timeout_period", success_rate := pf 60 100 },
         { action := "use_emergency_approval", success_rate := pf 95 100 }] }),
   ("vendor_invalid",
    { description := "Invalid or blocked vendor", frequency := pf 25 100,
      healing_strategies :=
        [{ action := "suggest_alternative_vendor", success_rate := pf 90 100 },
         { action := "unblock_vendor_temporarily", success_rate := pf 75 100 },
         { action := "create_new_vendor_record", success_rate := pf 95 100 }] }),
   ("material_not_found",
    { description := "Material master not maintained", frequency := pf 20 100,
      healing_strategies :=
        [{ action := "suggest_similar_material", success_rate := pf 80 100 },
         { action := "create_material_master", success_rate := pf 90 100 },
         { action := "use_material_substitution", success_rate := pf 70 100 }] }),
   ("authorization_missing",
    { description := "User lacks required authorization", frequency := pf 15 100,
      healing_strategies :=
        [{ action := "assign_temporary_authorization", success_rate := pf 85 100 },
         { action := "use_authorized_user", success_rate := pf 95 100 },
         { action := "request_authorization_from_admin", success_rate := pf 70 100 }] }),
   ("network_timeout",
    { description := "Network connection timeout", frequency := pf 5 100,
      healing_strategies :=
        [{ action := "retry_with_backoff", success_rate := pf 75 100 },
         { action := "switch_to_backup_server", success_rate := pf 90 100 },
         { action := "reduce_transaction_complexity", success_rate := pf 60 100 }] })]

def base_steps (transaction : String) : List String :=
  ["Login to SAP system",
   "Navigate to " ++ transaction ++ " transaction",
   "Enter transaction data",
   "Validate input fields",
   "Save transaction",
   "Verify transaction completion"]

def transaction_steps : List (String × List String) :=
  [("ME21N",
    ["Enter vendor information", "Add material line items", "Set delivery details",
     "Check approval workflow", "Generate purchase order number"]),
   ("MIGO",
    ["Reference purchase order", "Enter received quantities", "Check quality inspection",
     "Post goods receipt", "Generate material document"]),
   ("VA01",
    ["Enter customer information", "Add product line items", "Check ATP availability",
     "Calculate pricing", "Generate sales order number"]),
   ("FB60",
    ["Enter vendor invoice details", "Reference purchase order", "Validate tax calculations",
     "Check approval limits", "Post invoice document"])]

/-- enumerate(all_steps, 1) turned into pending ExecutionStep records. -/
def mk_steps : Nat → List String → List ExecutionStep
  | _, [] => []
  | i, d :: ds => { step_number := i, description := d, status := "pending" } :: mk_steps (i + 1) ds

/-- TestExecutionAgent._generate_execution_steps. -/
def generate_execution_steps (transaction : String) : List ExecutionStep :=
  let bs := base_steps transaction
  let specific :=
    match dict_lookup transaction_steps transaction with
    | some s => s
    | none => []
  mk_steps 1 (bs.take 2 ++ specific ++ bs.drop 2)

/-- TestExecutionAgent._create_test_execution.  The execution id is built
from the millisecond clock tick and a randint suffix (uniqueness comes
from the strictly increasing tick). -/
def create_test_execution (a : TestExecutionAgentState) (tc : TestCase) (ctx : SimCtx) :
    TestExecution × TestExecutionAgentState × SimCtx :=
  let (tms, ctx) := ctx.now
  let (sfx, ctx) := ctx.randint 100 999
  let execution_id := "exec_" ++ toString tms ++ "_" ++ toString sfx
  let transaction := ((tc.transaction_code).orElse fun _ => tc.transaction).getD "ME21N"
  let steps := generate_execution_steps transaction
  let (tcid, ctx) :=
    match (tc.test_id).orElse fun _ => tc.id with
    | some s => (s, ctx)
    | none =>
      let (n, ctx) := ctx.randint 1000 9999
      ("test_" ++ toString n, ctx)
  let test_name :=
    match tc.name with
    | some s => s
    | none => "Test execution for " ++ transaction
  let (st, ctx) := ctx.now
  let e : TestExecution :=
    { execution_id := execution_id, test_case_id := tcid, test_name := test_name,
      transaction := transaction, status := .queued, result := none,
      start_time := st, total_steps := steps.length, execution_steps := steps }
  (e, { a with active_executions := dict_insert a.active_executions execution_id e }, ctx)

def critical_steps : List String :=
  ["Enter transaction data", "Save transaction", "Check approval workflow"]

/-- complexity.get("failure_rate", 0.15) on
sap_transaction_complexity.get(transaction, {}). -/
def base_failure_rate (transaction : String) : PyFloat :=
  match dict_lookup sap_transaction_complexity transaction with
  | some cx => cx.failure_rate
  | none => pf 15 100

/-- TestExecutionAgent._should_step_fail. -/
def should_step_fail (transaction : String) (step : ExecutionStep) (step_index : Nat)
    (u : PyFloat) : Bool :=
  let failure_rate :=
    if step.description ∈ critical_steps then (base_failure_rate transaction).mul (pf 15 10)
    else (base_failure_rate transaction).mul (pf 5 10)
  let failure_rate := if step_index < 2 then failure_rate.mul (pf 2 10) else failure_rate
  u.lt failure_rate

def error_codes : List (String × String) :=
  [("approval_timeout", "ME_APPROVAL_TIMEOUT"),
   ("vendor_invalid", "ME_VENDOR_INVALID"),
   ("material_not_found", "MM_MATERIAL_NOT_FOUND"),
   ("authorization_missing", "SY_NO_AUTHORIZATION"),
   ("network_timeout", "SY_NETWORK_TIMEOUT")]

def error_message_for (pattern transaction : String) (step : ExecutionStep) : String :=
  if pattern = "approval_timeout" then
    "Approval workflow timeout - " ++ step.description ++ " requires manager approval"
  else if pattern = "vendor_invalid" then
    "Vendor validation failed - vendor does not exist or is blocked"
  else if pattern = "material_not_found" then
    "Material master not maintained for requested item"
  else if pattern = "authorization_missing" then
    "User lacks required authorization for " ++ transaction
  else
    "Network timeout during " ++ step.description

/-- random.choices with one pick: bisect over the cumulative weights, with
the index capped at the last element (bisect is called with hi = n - 1). -/
def weighted_choice : List (String × ErrorPatternInfo) → PyFloat → PyFloat →
    Option (String × ErrorPatternInfo)
  | [], _, _ => none
  | [p], _, _ => some p
  | p :: q :: rest, x, cum =>
    let cum1 := cum.add p.2.frequency
    if x.lt cum1 then some p else weighted_choice (q :: rest) x cum1

/-- TestExecutionAgent._generate_step_error. -/
def generate_step_error (transaction : String) (step : ExecutionStep) (u : PyFloat) :
    StepError :=
  let total := error_patterns.foldl (fun acc p => acc.add p.2.frequency) (pf 0 1)
  let x := u.mul total
  match weighted_choice error_patterns x (pf 0 1) with
  | some (pname, pinfo) =>
    { code := (dict_lookup error_codes pname).getD "",
      message := error_message_for pname transaction step,
      details := pinfo.description,
      pattern := pname }
  | none => { code := "", message := "", details := "", pattern := "" }

def heal_success_record (strategy : Strategy) (pattern root_cause : String) : HealingResult :=
  { success := true, action := strategy.action, pattern := pattern,
    analysis := "Auto-healing successful using " ++ strategy.action,
    root_cause := root_cause, auto_retry_attempted := true,
    auto_retry_result := "success",
    auto_retry_details := "Automatically resolved " ++ pattern ++ " by applying " ++ strategy.action,
    recommendations :=
      [{ action := strategy.action, priority := "high",
         estimated_fix_time := "30 seconds", automation_available := true }] }

def heal_failure_record (pattern root_cause : String) : HealingResult :=
  { success := false, action := "manual_intervention_required", pattern := pattern,
    analysis := "Auto-healing failed for " ++ pattern, root_cause := root_cause,
    auto_retry_attempted := true, auto_retry_result := "failed",
    auto_retry_details := "All automated healing strategies failed",
    recommendations :=
      [{ action := "manual_investigation_required", priority := "high",
         estimated_fix_time := "10 minutes", automation_available := false }] }

/-- Stable insertion into a descending-by-success-rate list: an inserted
element goes before the first element whose rate it reaches, so earlier
elements stay first among equals. -/
def insert_strategy_desc (s : Strategy) : List Strategy → List Strategy
  | [] => [s]
  | t :: ts =>
    if (t.success_rate).le s.success_rate then s :: t :: ts
    else t :: insert_strategy_desc s ts

/-- sorted(healing_strategies, key=success_rate, reverse=True): Python's
sorted is a stable sort, and a stable sort's output is unique, so this
stable insertion sort computes the same list. -/
def sort_strategies_desc : List Strategy → List Strategy
  | [] => []
  | s :: ss => insert_strategy_desc s (sort_strategies_desc ss)

/-- The strategy loop inside _attempt_auto_healing: one draw per strategy,
first success wins. -/
def heal_loop (pattern root_cause : String) :
    List Strategy → SimCtx → HealingResult × SimCtx
  | [], ctx => (heal_failure_record pattern root_cause, ctx)
  | s :: rest, ctx =>
    let (u, ctx1) := ctx.draw
    if u.lt s.success_rate then (heal_success_record s pattern root_cause, ctx1)
    else heal_loop pattern root_cause rest ctx1

/-- TestExecutionAgent._attempt_auto_healing (the pattern key is always
present in the table at the call site). -/
def pattern_strategies (p : String) : List Strategy :=
  match dict_lookup error_patterns p with
  | some info => info.healing_strategies
  | none => []

def attempt_auto_healing (err : StepError) (ctx : SimCtx) : HealingResult × SimCtx :=
  heal_loop err.pattern err.details (sort_strategies_desc (pattern_strategies err.pattern)) ctx

/-- An ASCII apostrophe, kept out of the source text as a character code. -/
def squote : String := String.singleton (Char.ofNat 39)

def details_templates (transaction : String) : List (String × String) :=
  [("Login to SAP system", "Successful login with user credentials"),
   ("Navigate to \x7btransaction\x7d transaction",
      "Transaction " ++ transaction ++ " loaded successfully"),
   ("Enter transaction data", "All required fields populated successfully"),
   ("Save transaction", "Transaction saved successfully"),
   ("Enter vendor information", "Vendor V001 validated and accepted"),
   ("Add material line items", "Material M001 added, price determined automatically"),
   ("Generate purchase order number", "Purchase order 4500123456 created successfully"),
   ("Post goods receipt", "Material document 5000654321 created successfully"),
   ("Generate sales order number", "Sales order 1000567890 created successfully")]

/-- TestExecutionAgent._generate_step_success_details.  Note the navigate
template key contains literal braces in the source (it is not an f-string),
so the navigate step always falls through to the default text. -/
def generate_step_success_details (transaction : String) (step : ExecutionStep) : String :=
  match dict_lookup (details_templates transaction) step.description with
  | some d => d
  | none => "Step " ++ squote ++ step.description ++ squote ++ " completed successfully"

/-- Step end bookkeeping shared by both non-break loop exits: end time,
duration in ms (int() truncation), screenshot reference. -/
def complete_step_timing (step : ExecutionStep) (step_time : PyFloat) (eid : String)
    (idx1 : Nat) (ctx : SimCtx) : ExecutionStep × SimCtx :=
  let (t, ctx1) := ctx.now
  ({ step with
      end_time := some t,
      duration_ms := some (pyTrunc (step_time.mul (pf 1000 1))),
      screenshot := some (eid ++ "_step_" ++ toString idx1 ++ ".png") }, ctx1)

/-- The per-step loop of _simulate_sap_execution.  Arguments: transaction,
its complexity record, the (constant) full step count, the execution being
mutated, the pending steps, the already-processed steps, the 0-based index,
the accumulated total duration, the current datetime value (start_time of
the next step reuses the end timestamp of the previous step, as in the
source), and the context.  Returns the execution (with steps written back),
the accumulated duration, and the context. -/
def sim_loop (transaction : String) (cx : Complexity) (nsteps : Nat) :
    TestExecution → List ExecutionStep → List ExecutionStep → Nat → PyFloat → Nat →
    SimCtx → TestExecution × PyFloat × SimCtx
  | e, [], done, _, td, _, ctx => ({ e with execution_steps := done }, td, ctx)
  | e, step :: rest, done, i, td, cur, ctx =>
    let e1 := { e with current_step := i + 1 }
    let (u1, ctx) := ctx.draw
    let base_step_time := (cx.base_time).div (PyFloat.ofNat nsteps)
    let step_time := base_step_time.mul (pyUniform (pf 7 10) (pf 18 10) u1)
    let step1 := { step with status := "running", start_time := some cur }
    let (u2, ctx) := ctx.draw
    if should_step_fail transaction step1 i u2 then
      let (u3, ctx) := ctx.draw
      let err := generate_step_error transaction step1 u3
      let step2 := { step1 with
                     status := "failed", error_message := some err.message,
                     error_code := some err.code, details := some err.details }
      let (hr, ctx) := attempt_auto_healing err ctx
      if hr.success then
        let step3 := { step2 with
                       status := "passed",
                       details := some (err.details ++ " | Auto-healed: " ++ hr.action) }
        let e2 := { e1 with auto_healing := some hr }
        let (step4, ctx) := complete_step_timing step3 step_time e2.execution_id (i + 1) ctx
        sim_loop transaction cx nsteps e2 rest (done ++ [step4]) (i + 1) (td.add step_time)
          (step4.end_time.getD 0) ctx
      else
        ({ e1 with
           status := .failed, result := some .failed,
           execution_steps := done ++ [step2] ++ rest }, td, ctx)
    else
      let step2 := { step1 with
                     status := "passed",
                     details := some (generate_step_success_details transaction step1) }
      let (step3, ctx) := complete_step_timing step2 step_time e1.execution_id (i + 1) ctx
      sim_loop transaction cx nsteps e1 rest (done ++ [step3]) (i + 1) (td.add step_time)
        (step3.end_time.getD 0) ctx

def default_complexity : Complexity :=
  { base_time := pf 45 1, complexity := "medium", failure_rate := pf 15 100 }

/-- TestExecutionAgent._calculate_performance_metrics (Python's truthiness
filter on duration_ms drops both None and 0). -/
def calculate_performance_metrics (e : TestExecution) (ctx : SimCtx) :
    Option PerformanceMetrics × SimCtx :=
  let total_duration := (e.duration_seconds).getD (pf 0 1)
  let step_durations :=
    (e.execution_steps.filterMap fun s => s.duration_ms).filter fun d => d ≠ 0
  if step_durations.isEmpty then (none, ctx)
  else
    let (u, ctx) := ctx.draw
    let (mem, ctx) := ctx.randint 180 300
    let (lat, ctx) := ctx.randint 15 50
    let s := step_durations.foldl (· + ·) 0
    (some { total_duration := total_duration,
            response_time_avg := Int.fdiv s step_durations.length,
            response_time_max := (step_durations.max?).getD 0,
            response_time_min := (step_durations.min?).getD 0,
            cpu_usage_avg := pyUniform (pf 10 1) (pf 25 1) u,
            memory_usage_mb := mem,
            network_latency_ms := lat }, ctx)

def transaction_validations : List (String × List Validation) :=
  [("ME21N",
    [{ validation := "PO number generated", expected := "4500xxxxxx format",
       actual := "4500123456", status := "passed" },
     { validation := "Vendor validation", expected := "Active vendor status",
       actual := "Active vendor V001", status := "passed" }]),
   ("MIGO",
    [{ validation := "Material document created", expected := "5000xxxxxx format",
       actual := "5000654321", status := "passed" },
     { validation := "Quantity validation", expected := "Received quantity matches PO",
       actual := "100 units received", status := "passed" }]),
   ("VA01",
    [{ validation := "Sales order number generated", expected := "1000xxxxxx format",
       actual := "1000567890", status := "passed" },
     { validation := "ATP check", expected := "Sufficient stock available",
       actual := "Stock: 150 units available", status := "passed" }])]

/-- The 40%-downgrade pass over validations[1:] when the execution failed. -/
def downgrade_validations : List Validation → SimCtx → List Validation × SimCtx
  | [], ctx => ([], ctx)
  | v :: rest, ctx =>
    let (u, ctx1) := ctx.draw
    let v1 :=
      if u.lt (pf 4 10) then
        { v with status := "failed", actual := "Failed due to execution error" }
      else v
    let (rest1, ctx2) := downgrade_validations rest ctx1
    (v1 :: rest1, ctx2)

/-- TestExecutionAgent._generate_validations. -/
def generate_validations (e : TestExecution) (ctx : SimCtx) : List Validation × SimCtx :=
  let first : Validation :=
    { validation := "Transaction completion",
      expected := e.transaction ++ " transaction completed successfully",
      actual := e.transaction ++ " completed with success status",
      status := if e.result = some .passed then "passed" else "failed" }
  let extra :=
    match dict_lookup transaction_validations e.transaction with
    | some l => l
    | none => []
  let vs := first :: extra
  if e.result = some .failed then
    match vs with
    | [] => ([], ctx)
    | v0 :: rest =>
      let (rest1, ctx1) := downgrade_validations rest ctx
      (v0 :: rest1, ctx1)
  else (vs, ctx)

/-- The body of TestExecutionAgent._simulate_sap_execution after the
complexity lookup, generic in the complexity record: run the step loop,
finalize status/result/metrics/validations, move the execution from the
active set to the history. -/
def simulate_body_with (cx : Complexity) (a : TestExecutionAgentState) (e : TestExecution)
    (ctx : SimCtx) : TestExecutionAgentState × SimCtx :=
  let (cur0, ctx) := ctx.now
  let r := sim_loop e.transaction cx e.execution_steps.length e e.execution_steps [] 0
    (pf 0 1) cur0 ctx
  let e1 := r.1
  let td := r.2.1
  let ctx := r.2.2
  let e2 :=
    if e1.status = .running then { e1 with status := .completed, result := some .passed }
    else e1
  let (tend, ctx) := ctx.now
  let e3 := { e2 with end_time := some tend, duration_seconds := some td }
  let pmr := calculate_performance_metrics e3 ctx
  let e4 := { e3 with performance_metrics := pmr.1 }
  let vr := generate_validations e4 pmr.2
  let e5 := { e4 with validations := vr.1 }
  let a1 := { a with
              execution_history := a.execution_history ++ [e5],
              active_executions := dict_erase a.active_executions e5.execution_id }
  (a1, vr.2)

/-- The body of TestExecutionAgent._simulate_sap_execution up to (and
excluding) the final _process_execution_queue call, resolving the
transaction's complexity profile with its default. -/
def simulate_body (a : TestExecutionAgentState) (e : TestExecution)
    (ctx : SimCtx) : TestExecutionAgentState × SimCtx :=
  simulate_body_with
    (match dict_lookup sap_transaction_complexity e.transaction with
     | some c => c
     | none => default_complexity) a e ctx

/-- TestExecutionAgent._process_execution_queue: while capacity is free and
the queue is non-empty, pop the head and look the popped id up in the
execution history (the source looks in the history, not in the active set
where queued executions actually live).  In the source a promoted
execution's own simulation re-enters _process_execution_queue and the
while loop then re-checks the queue; here the loop is flattened -- the
continuation after the promoted run processes exactly the queue state the
nested call would, performing the identical pops in the identical order --
so that the recursion is structural in the fuel.  The fuel argument bounds
the loop (queue length + 1 suffices; running out of fuel returns the state
unchanged, which never happens at the modelled call sites). -/
def process_execution_queue (fuel : Nat) (a : TestExecutionAgentState) (ctx : SimCtx) :
    TestExecutionAgentState × SimCtx :=
  match fuel, a.execution_queue with
  | 0, _ => (a, ctx)
  | _ + 1, [] => (a, ctx)
  | fuel1 + 1, eid :: rest =>
    if a.active_executions.length < a.max_concurrent_executions then
      let a1 := { a with execution_queue := rest }
      match a1.execution_history.find? (fun ex => ex.execution_id == eid) with
      | some ex =>
        let a2 := { a1 with active_executions := dict_insert a1.active_executions eid ex }
        let e1 := { ex with status := ExecutionStatus.running, current_step := 1 }
        let a3 := { a2 with active_executions := dict_insert a2.active_executions eid e1 }
        let r := simulate_body a3 e1 ctx
        process_execution_queue fuel1 r.1 r.2
      | none => process_execution_queue fuel1 a1 ctx
    else (a, ctx)

/-- TestExecutionAgent._simulate_sap_execution: the body followed by queue
processing. -/
def simulate_sap_execution (fuel : Nat) (a : TestExecutionAgentState) (e : TestExecution)
    (ctx : SimCtx) : TestExecutionAgentState × SimCtx :=
  let r := simulate_body a e ctx
  process_execution_queue fuel r.1 r.2

/-- TestExecutionAgent._start_execution (the stored copy of the execution
is updated, modelling Python's in-place mutation of the shared object). -/
def start_execution (fuel : Nat) (a : TestExecutionAgentState) (e : TestExecution)
    (ctx : SimCtx) : TestExecutionAgentState × SimCtx :=
  let e1 := { e with status := .running, current_step := 1 }
  let a1 := { a with active_executions := dict_insert a.active_executions e1.execution_id e1 }
  simulate_sap_execution fuel a1 e1 ctx

/-- The fuel the public operations hand to the queue processor: one more
than the queue length, which the queue-shrinking recursion never exhausts. -/
def default_fuel (a : TestExecutionAgentState) : Nat := a.execution_queue.length + 1

/-- TestExecutionAgent.execute_test_suite: create each execution, then
queue it if at capacity (the check counts the just-created execution,
which _create_test_execution already stored in the active set) or start
it immediately.  An empty list returns an error without touching state. -/
def execute_test_suite (a : TestExecutionAgentState) (tcs : List TestCase) (ctx : SimCtx) :
    TestExecutionAgentState × SimCtx :=
  match tcs with
  | [] => (a, ctx)
  | tc :: rest =>
    let cr := create_test_execution a tc ctx
    let e := cr.1
    let a1 := cr.2.1
    let ctx1 := cr.2.2
    if a1.max_concurrent_executions ≤ a1.active_executions.length then
      let a2 := { a1 with execution_queue := a1.execution_queue ++ [e.execution_id] }
      execute_test_suite a2 rest ctx1
    else
      let r := start_execution (default_fuel a1) a1 e ctx1
      execute_test_suite r.1 rest r.2

/-- TestExecutionAgent.execute_single_test (called with a non-empty test
case; an empty dict returns an error without touching state). -/
def execute_single_test (a : TestExecutionAgentState) (tc : TestCase) (ctx : SimCtx) :
    TestExecutionAgentState × SimCtx :=
  let cr := create_test_execution a tc ctx
  let e := cr.1
  let a1 := cr.2.1
  let ctx1 := cr.2.2
  if a1.active_executions.length < a1.max_concurrent_executions then
    start_execution (default_fuel a1) a1 e ctx1
  else
    ({ a1 with execution_queue := a1.execution_queue ++ [e.execution_id] }, ctx1)

inductive CancelResult where
  | removed_from_queue | cancelled_active | not_found
deriving DecidableEq, Repr

/-- TestExecutionAgent.cancel_execution. -/
def cancel_execution (a : TestExecutionAgentState) (eid : String) (ctx : SimCtx) :
    TestExecutionAgentState × CancelResult × SimCtx :=
  if eid ∈ a.execution_queue then
    ({ a with execution_queue := a.execution_queue.erase eid }, .removed_from_queue, ctx)
  else
    match dict_lookup a.active_executions eid with
    | some e =>
      let (t, ctx1) := ctx.now
      let e1 := { e with status := .cancelled, result := some .skipped, end_time := some t }
      ({ a with
         execution_history := a.execution_history ++ [e1],
         active_executions := dict_erase a.active_executions eid }, .cancelled_active, ctx1)
    | none => (a, .not_found, ctx)

/-- TestExecutionAgent.get_execution_status: active set first, then the
first id match in the history. -/
def get_execution_status (a : TestExecutionAgentState) (eid : String) : Option TestExecution :=
  match dict_lookup a.active_executions eid with
  | some e => some e
  | none => a.execution_history.find? (fun ex => ex.execution_id == eid)

theorem dict_lookup_mem {α : Type} {l : List (String × α)} {k : String} {v : α}
    (h : dict_lookup l k = some v) : (k, v) ∈ l := by
  induction l with
  | nil => simp [dict_lookup] at h
  | cons hd tl ih =>
    obtain ⟨k1, w⟩ := hd
    by_cases hk : k1 = k
    · subst hk
      simp [dict_lookup] at h
      subst h
      exact List.mem_cons_self _ _
    · simp [dict_lookup, hk] at h
      exact List.mem_cons_of_mem _ (ih h)

theorem base_failure_rate_den_pos (t : String) : 0 < (base_failure_rate t).den := by
  unfold base_failure_rate
  rcases h : dict_lookup sap_transaction_complexity t with _ | cx
  · decide
  · have hmem := dict_lookup_mem h
    fin_cases hmem <;> decide

/-- Modelled from the spec wording of claim C5 only (for comparison with
should_step_fail): baseline failure rate, multiplied by 1.5 for steps in
the critical allowlist, additionally multiplied by 0.2 for the first two
steps, and exactly the baseline for all other steps. -/
def spec_should_step_fail (transaction : String) (step : ExecutionStep) (step_index : Nat)
    (u : PyFloat) : Bool :=
  let rate :=
    if step.description ∈ critical_steps then (base_failure_rate transaction).mul (pf 15 10)
    else base_failure_rate transaction
  let rate := if step_index < 2 then rate.mul (pf 2 10) else rate
  u.lt rate

def c5_step : ExecutionStep :=
  { step_number := 4, description := "Validate input fields", status := "running" }

/-- Claim C5 counterexample: for ME21N (baseline 0.15), the non-critical,
non-early step "Validate input fields" at index 3 with draw 0.1: the claim
as stated predicts a failure (0.1 < 0.15), but the code does not fail the
step because it halves the baseline for non-critical steps (0.1 is not
below 0.075). -/
theorem should_step_fail_claim_counterexample :
    spec_should_step_fail ("ME21N") c5_step 3 (pf 1 10) = true
    ∧ should_step_fail ("ME21N") c5_step 3 (pf 1 10) = false := by
  decide

/-- Claim C5 (amended): a step fails iff the uniform draw falls below the
transaction's baseline failure rate multiplied by 1.5 for critical-list
steps and by 0.5 for all other steps, and additionally multiplied by 0.2
for the first two steps.  Stated over rational values of the draw and the
rates. -/
theorem should_step_fail_amended (transaction : String) (step : ExecutionStep)
    (step_index : Nat) (u : PyFloat) (hu : 0 < u.den) :
    should_step_fail transaction step step_index u = true ↔
      u.toRat < (base_failure_rate transaction).toRat
        * (if step.description ∈ critical_steps then 3/2 else 1/2)
        * (if step_index < 2 then 1/5 else 1) := by
  have hb := base_failure_rate_den_pos transaction
  unfold should_step_fail
  by_cases hc : step.description ∈ critical_steps <;> by_cases hi : step_index < 2 <;>
    simp only [hc, hi, if_true, if_false, ite_true, ite_false]
  · rw [PyFloat.lt_iff_toRat _ _ hu
      (by simp [PyFloat.mul, pf]; positivity)]
    rw [PyFloat.mul_toRat, PyFloat.mul_toRat]
    have h1 : (pf 15 10).toRat = 3/2 := by norm_num [pf, PyFloat.toRat]
    have h2 : (pf 2 10).toRat = 1/5 := by norm_num [pf, PyFloat.toRat]
    rw [h1, h2]
  · rw [PyFloat.lt_iff_toRat _ _ hu (by simp [PyFloat.mul, pf]; positivity)]
    rw [PyFloat.mul_toRat]
    have h1 : (pf 15 10).toRat = 3/2 := by norm_num [pf, PyFloat.toRat]
    rw [h1, mul_one]
  · rw [PyFloat.lt_iff_toRat _ _ hu (by simp [PyFloat.mul, pf]; positivity)]
    rw [PyFloat.mul_toRat, PyFloat.mul_toRat]
    have h1 : (pf 5 10).toRat = 1/2 := by norm_num [pf, PyFloat.toRat]
    have h2 : (pf 2 10).toRat = 1/5 := by norm_num [pf, PyFloat.toRat]
    rw [h1, h2]
  · rw [PyFloat.lt_iff_toRat _ _ hu (by simp [PyFloat.mul, pf]; positivity)]
    rw [PyFloat.mul_toRat]
    have h1 : (pf 5 10).toRat = 1/2 := by norm_num [pf, PyFloat.toRat]
    rw [h1, mul_one]

/-- Witness for the amended C5 at the counterexample input. -/
theorem should_step_fail_amended_witness :
    0 < (pf 1 10).den ∧
      (should_step_fail ("ME21N") c5_step 3 (pf 1 10) = true ↔
        (pf 1 10).toRat < (base_failure_rate ("ME21N")).toRat
          * (if c5_step.description ∈ critical_steps then 3/2 else 1/2)
          * (if (3 : Nat) < 2 then 1/5 else 1)) :=
  ⟨by decide, should_step_fail_amended ("ME21N") c5_step 3 (pf 1 10) (by decide)⟩

def c1_run_exec : TestExecution :=
  { execution_id := "e1", test_case_id := "t1", test_name := "run1",
    transaction := "ZZ99", status := .running, result := none, start_time := 0,
    current_step := 1, total_steps := (generate_execution_steps ("ZZ99")).length,
    execution_steps := generate_execution_steps ("ZZ99") }

def c1_queued_exec : TestExecution :=
  { execution_id := "e2", test_case_id := "t2", test_name := "queued2",
    transaction := "ZZ99", status := .queued, result := none, start_time := 0,
    current_step := 0, total_steps := (generate_execution_steps ("ZZ99")).length,
    execution_steps := generate_execution_steps ("ZZ99") }

/-- One running execution about to terminate, one queued execution whose id
heads the wait queue (exactly the state the queue is for). -/
def c1_agent : TestExecutionAgentState :=
  { active_executions := [("e1", c1_run_exec), ("e2", c1_queued_exec)],
    execution_queue := ["e2"], execution_history := [] }

def c1_ctx : SimCtx := { draws := fun _ => pf 1 2, nat_draws := fun _ => 0 }

/-- Claim C1, evaluated at the failing input: when the running execution e1
terminates with "e2" at the head of the wait queue, _process_execution_queue
pops "e2" off the queue but looks it up in execution_history -- where queued
executions never are (they live in active_executions) -- so e2 is silently
dropped: the queue empties, e2 stays in the active set with status queued
(it never transitions to running and never reaches the history), and only
e1 is ever recorded as having run. -/
theorem process_execution_queue_drops_queued :
    (simulate_sap_execution (default_fuel c1_agent) c1_agent c1_run_exec c1_ctx).1.execution_queue
        = []
    ∧ dict_lookup (simulate_sap_execution (default_fuel c1_agent) c1_agent c1_run_exec
        c1_ctx).1.active_executions ("e2") = some c1_queued_exec
    ∧ c1_queued_exec.status = .queued
    ∧ ((simulate_sap_execution (default_fuel c1_agent) c1_agent c1_run_exec
        c1_ctx).1.execution_history.map fun e => e.execution_id) = ["e1"]
    ∧ ((get_execution_status (simulate_sap_execution (default_fuel c1_agent) c1_agent
        c1_run_exec c1_ctx).1 ("e2")).map fun e => e.status) = some .queued := by
  decide

/-- A queued execution whose id sits in the wait queue, as stored by
execute_test_suite at capacity. -/
def c2_agent : TestExecutionAgentState :=
  { active_executions := [("e2", c1_queued_exec)],
    execution_queue := ["e2"], execution_history := [] }

/-- Claim C2 counterexample: cancelling the queued execution e2 removes it
from the wait queue, but its reported status afterwards is still queued --
not cancelled as the claim states (cancel_execution's queued branch never
touches the execution record). -/
theorem cancel_queued_status_counterexample :
    ((get_execution_status (cancel_execution c2_agent ("e2") c1_ctx).1 ("e2")).map
        fun e => e.status) = some .queued
    ∧ some ExecutionStatus.queued ≠ some ExecutionStatus.cancelled := by
  decide

/-- Claim C2 (amended): cancelling an execution whose id is in the wait
queue removes (the first occurrence of) that id from the queue and reports
success, and changes nothing else: the active set and the history are
untouched, so the execution never transitions to running, never produces
step data -- and, in particular, its stored status remains queued rather
than becoming cancelled. -/
theorem cancel_queued_removes_from_queue (a : TestExecutionAgentState) (eid : String)
    (ctx : SimCtx) (h : eid ∈ a.execution_queue) :
    (cancel_execution a eid ctx).1.execution_queue = a.execution_queue.erase eid
    ∧ (cancel_execution a eid ctx).1.active_executions = a.active_executions
    ∧ (cancel_execution a eid ctx).1.execution_history = a.execution_history
    ∧ (cancel_execution a eid ctx).2.1 = .removed_from_queue := by
  unfold cancel_execution
  rw [if_pos h]
  exact ⟨rfl, rfl, rfl, rfl⟩

/-- Witness for the amended C2 at the concrete queued execution. -/
theorem cancel_queued_removes_from_queue_witness :
    (cancel_execution c2_agent ("e2") c1_ctx).1.execution_queue
        = c2_agent.execution_queue.erase ("e2")
    ∧ (cancel_execution c2_agent ("e2") c1_ctx).1.active_executions
        = c2_agent.active_executions
    ∧ (cancel_execution c2_agent ("e2") c1_ctx).1.execution_history
        = c2_agent.execution_history
    ∧ (cancel_execution c2_agent ("e2") c1_ctx).2.1 = .removed_from_queue :=
  cancel_queued_removes_from_queue c2_agent ("e2") c1_ctx (by decide)

theorem insert_strategy_desc_perm (s : Strategy) (l : List Strategy) :
    (insert_strategy_desc s l).Perm (s :: l) := by
  induction l with
  | nil => exact List.Perm.refl _
  | cons t ts ih =>
    unfold insert_strategy_desc
    by_cases h : ((t.success_rate).le s.success_rate) = true
    · rw [if_pos h]
    · rw [if_neg h]
      exact (List.Perm.cons t ih).trans (List.Perm.swap s t ts)

theorem sort_strategies_desc_perm (l : List Strategy) :
    (sort_strategies_desc l).Perm l := by
  induction l with
  | nil => exact List.Perm.refl _
  | cons s ss ih =>
    unfold sort_strategies_desc
    exact (insert_strategy_desc_perm s (sort_strategies_desc ss)).trans (List.Perm.cons s ih)

theorem weighted_choice_mem :
    ∀ (l : List (String × ErrorPatternInfo)) (x cum : PyFloat)
      (p : String × ErrorPatternInfo), weighted_choice l x cum = some p → p ∈ l := by
  intro l
  induction l with
  | nil => intro x cum p h; simp [weighted_choice] at h
  | cons a tl ih =>
    intro x cum p h
    cases tl with
    | nil =>
      simp [weighted_choice] at h
      simp [h]
    | cons q rest =>
      unfold weighted_choice at h
      by_cases hx : (x.lt (cum.add a.2.frequency)) = true
      · rw [if_pos hx] at h
        obtain rfl : a = p := by simpa using h
        exact List.mem_cons_self _ _
      · rw [if_neg hx] at h
        exact List.mem_cons_of_mem _ (ih x _ p h)

theorem weighted_choice_some :
    ∀ (l : List (String × ErrorPatternInfo)), l ≠ [] → ∀ (x cum : PyFloat),
      ∃ p, weighted_choice l x cum = some p := by
  intro l
  induction l with
  | nil => intro h; exact absurd rfl h
  | cons a tl ih =>
    intro _ x cum
    cases tl with
    | nil => exact ⟨a, rfl⟩
    | cons q rest =>
      unfold weighted_choice
      by_cases hx : (x.lt (cum.add a.2.frequency)) = true
      · exact ⟨a, by rw [if_pos hx]⟩
      · obtain ⟨p, hp⟩ := ih (by simp) x (cum.add a.2.frequency)
        exact ⟨p, by rw [if_neg hx]; exact hp⟩

theorem error_patterns_lookup_of_mem (p : String) (info : ErrorPatternInfo)
    (h : (p, info) ∈ error_patterns) : dict_lookup error_patterns p = some info := by
  fin_cases h <;> decide

theorem generate_step_error_pattern_spec (txn : String) (step : ExecutionStep) (u : PyFloat) :
    ∃ info : ErrorPatternInfo,
      ((generate_step_error txn step u).pattern, info) ∈ error_patterns
      ∧ dict_lookup error_patterns (generate_step_error txn step u).pattern = some info
      ∧ (generate_step_error txn step u).details = info.description := by
  unfold generate_step_error
  obtain ⟨⟨pn, pi⟩, hwc⟩ := weighted_choice_some error_patterns (by decide)
    (u.mul (error_patterns.foldl (fun acc p => acc.add p.2.frequency) (pf 0 1))) (pf 0 1)
  simp only [hwc]
  have hmem := weighted_choice_mem _ _ _ _ hwc
  exact ⟨pi, hmem, error_patterns_lookup_of_mem _ _ hmem, rfl⟩

theorem sorted_strategies_pairwise (p : String) (info : ErrorPatternInfo)
    (h : (p, info) ∈ error_patterns) :
    List.Pairwise (fun s t : Strategy => ((t.success_rate).le s.success_rate) = true)
      (sort_strategies_desc info.healing_strategies) := by
  fin_cases h <;> simp [sort_strategies_desc, insert_strategy_desc,
    List.pairwise_cons] <;> decide

theorem heal_loop_first_success (pattern rc : String) :
    ∀ (ss : List Strategy) (ctx : SimCtx) (j : Nat) (hj : j < ss.length),
    (∀ i (hi : i < j),
      ((ctx.draws (ctx.didx + i)).lt (ss.get ⟨i, Nat.lt_trans hi hj⟩).success_rate) = false) →
    ((ctx.draws (ctx.didx + j)).lt (ss.get ⟨j, hj⟩).success_rate) = true →
    (heal_loop pattern rc ss ctx).1 = heal_success_record (ss.get ⟨j, hj⟩) pattern rc := by
  intro ss
  induction ss with
  | nil => intro ctx j hj; exact absurd hj (Nat.not_lt_zero j)
  | cons s rest ih =>
    intro ctx j hj hfail hsucc
    match j with
    | 0 =>
      simp only [Nat.add_zero, List.get] at hsucc
      unfold heal_loop SimCtx.draw
      simp only [hsucc, if_true]
      rfl
    | Nat.succ j1 =>
      have h0 := hfail 0 (Nat.succ_pos j1)
      simp only [Nat.add_zero, List.get] at h0
      unfold heal_loop SimCtx.draw
      simp only [h0, Bool.false_eq_true, if_false]
      have hj1 : j1 < rest.length := Nat.lt_of_succ_lt_succ hj
      have hfail1 : ∀ i (hi : i < j1),
          ((ctx.draws (ctx.didx + 1 + i)).lt
            (rest.get ⟨i, Nat.lt_trans hi hj1⟩).success_rate) = false := by
        intro i hi
        have h2 := hfail (i + 1) (Nat.succ_lt_succ hi)
        have he : ctx.didx + (i + 1) = ctx.didx + 1 + i := by omega
        rw [he] at h2
        simpa [List.get] using h2
      have hsucc1 : ((ctx.draws (ctx.didx + 1 + j1)).lt
          (rest.get ⟨j1, hj1⟩).success_rate) = true := by
        have he : ctx.didx + (j1 + 1) = ctx.didx + 1 + j1 := by omega
        rw [he] at hsucc
        simpa [List.get] using hsucc
      have := ih ({ ctx with didx := ctx.didx + 1 }) j1 hj1 hfail1 hsucc1
      simpa [List.get] using this

theorem heal_loop_all_fail (pattern rc : String) :
    ∀ (ss : List Strategy) (ctx : SimCtx),
    (∀ i (hi : i < ss.length),
      ((ctx.draws (ctx.didx + i)).lt (ss.get ⟨i, hi⟩).success_rate) = false) →
    (heal_loop pattern rc ss ctx).1 = heal_failure_record pattern rc := by
  intro ss
  induction ss with
  | nil => intro ctx _; rfl
  | cons s rest ih =>
    intro ctx hfail
    have h0 := hfail 0 (Nat.succ_pos rest.length)
    simp only [Nat.add_zero, List.get] at h0
    unfold heal_loop SimCtx.draw
    simp only [h0, Bool.false_eq_true, if_false]
    apply ih
    intro i hi
    have h2 := hfail (i + 1) (Nat.succ_lt_succ hi)
    have he : ctx.didx + (i + 1) = ctx.didx + 1 + i := by omega
    rw [he] at h2
    simpa [List.get] using h2

/-- Claim C3: for a failed step, auto-healing tries the pattern's
strategies in descending success_rate order (the tried list is a
descending-sorted permutation of the pattern's registered strategies) and
returns the success record naming the first strategy whose draw succeeds,
or the manual-intervention failure record when every draw fails; on
healing success the step loop continues with the failed step flipped back
to passed, its details annotated with the healing action and the healing
record stored on the execution; on healing failure the execution's status
and result become failed and the remaining steps are returned exactly as
they were (not attempted). -/
theorem auto_healing_spec
    (txn : String) (cx : Complexity) (nsteps : Nat) (e : TestExecution)
    (step : ExecutionStep) (rest done : List ExecutionStep) (i : Nat)
    (td : PyFloat) (cur : Nat) (ctx : SimCtx)
    (err : StepError) (hctx : SimCtx) (hr : HealingResult) (ss : List Strategy)
    (herr : err = generate_step_error txn step (ctx.draws (ctx.didx + 2)))
    (hhctx : hctx = { ctx with didx := ctx.didx + 3 })
    (hhr : hr = (attempt_auto_healing err hctx).1)
    (hss : ss = sort_strategies_desc (pattern_strategies err.pattern))
    (hfail : should_step_fail txn step i (ctx.draws (ctx.didx + 1)) = true) :
    (List.Pairwise (fun s t : Strategy => ((t.success_rate).le s.success_rate) = true) ss
      ∧ ss.Perm (pattern_strategies err.pattern))
    ∧ (∀ j (hj : j < ss.length),
        (∀ i2 (hi2 : i2 < j),
          ((hctx.draws (hctx.didx + i2)).lt
            (ss.get ⟨i2, Nat.lt_trans hi2 hj⟩).success_rate) = false) →
        ((hctx.draws (hctx.didx + j)).lt (ss.get ⟨j, hj⟩).success_rate) = true →
        hr = heal_success_record (ss.get ⟨j, hj⟩) err.pattern err.details)
    ∧ ((∀ i2 (hi2 : i2 < ss.length),
          ((hctx.draws (hctx.didx + i2)).lt (ss.get ⟨i2, hi2⟩).success_rate) = false) →
        hr = heal_failure_record err.pattern err.details)
    ∧ (hr.success = true →
        ∃ (step4 : ExecutionStep) (cur2 : Nat) (ctx2 : SimCtx) (td2 : PyFloat),
          sim_loop txn cx nsteps e (step :: rest) done i td cur ctx =
            sim_loop txn cx nsteps ({ e with current_step := i + 1, auto_healing := some hr })
              rest (done ++ [step4]) (i + 1) td2 cur2 ctx2
          ∧ step4.status = "passed"
          ∧ step4.details = some (err.details ++ " | Auto-healed: " ++ hr.action)
          ∧ step4.error_message = some err.message
          ∧ step4.error_code = some err.code)
    ∧ (hr.success = false →
        (sim_loop txn cx nsteps e (step :: rest) done i td cur ctx).1.status = .failed
        ∧ (sim_loop txn cx nsteps e (step :: rest) done i td cur ctx).1.result = some .failed
        ∧ ∃ step2 : ExecutionStep,
            (sim_loop txn cx nsteps e (step :: rest) done i td cur ctx).1.execution_steps
              = done ++ step2 :: rest
            ∧ step2.status = "failed"
            ∧ step2.error_message = some err.message
            ∧ step2.error_code = some err.code) := by
  subst herr
  subst hhctx
  subst hhr
  subst hss
  obtain ⟨info, hmem, hlk, hdet⟩ :=
    generate_step_error_pattern_spec txn step (ctx.draws (ctx.didx + 2))
  have hps : pattern_strategies
      (generate_step_error txn step (ctx.draws (ctx.didx + 2))).pattern
      = info.healing_strategies := by
    unfold pattern_strategies
    simp only [hlk]
  have hfail1 : should_step_fail txn
      ({ step with status := "running", start_time := some cur }) i
      (ctx.draws (ctx.didx + 1)) = true := hfail
  have herr1 : generate_step_error txn
      ({ step with status := "running", start_time := some cur })
      (ctx.draws (ctx.didx + 2))
      = generate_step_error txn step (ctx.draws (ctx.didx + 2)) := rfl
  refine ⟨⟨?_, ?_⟩, ?_, ?_, ?_, ?_⟩
  · rw [hps]
    exact sorted_strategies_pairwise _ _ hmem
  · exact sort_strategies_desc_perm _
  · intro j hj hprev hsucc
    unfold attempt_auto_healing
    exact heal_loop_first_success _ _ _ _ j hj hprev hsucc
  · intro hall
    unfold attempt_auto_healing
    exact heal_loop_all_fail _ _ _ _ hall
  · intro hsuccess
    simp only [sim_loop, SimCtx.draw]
    have h2 : ctx.didx + 1 + 1 = ctx.didx + 2 := by omega
    have h3 : ctx.didx + 1 + 1 + 1 = ctx.didx + 3 := by omega
    rw [h2, h3, hfail1, herr1]
    simp only [if_true]
    rw [hsuccess]
    simp only [if_true]
    exact ⟨_, _, _, _, rfl, rfl, rfl, rfl, rfl⟩
  · intro hfailure
    simp only [sim_loop, SimCtx.draw]
    have h2 : ctx.didx + 1 + 1 = ctx.didx + 2 := by omega
    have h3 : ctx.didx + 1 + 1 + 1 = ctx.didx + 3 := by omega
    rw [h2, h3, hfail1, herr1]
    simp only [if_true]
    rw [hfailure]
    simp only [Bool.false_eq_true, if_false]
    refine ⟨trivial, trivial,
      ⟨{ step with
          status := "failed", start_time := some cur,
          details := some (generate_step_error txn step (ctx.draws (ctx.didx + 2))).details,
          error_message := some (generate_step_error txn step (ctx.draws (ctx.didx + 2))).message,
          error_code := some (generate_step_error txn step (ctx.draws (ctx.didx + 2))).code },
        by simp, rfl, rfl, rfl⟩⟩

def c3_step : ExecutionStep :=
  { step_number := 3, description := "Enter transaction data", status := "pending" }

def c3_ctx : SimCtx := { draws := fun _ => pf 0 1, nat_draws := fun _ => 0 }

def c3_err : StepError := generate_step_error ("VA01") c3_step (c3_ctx.draws (c3_ctx.didx + 2))

def c3_hctx : SimCtx := { c3_ctx with didx := c3_ctx.didx + 3 }

def c3_hr : HealingResult := (attempt_auto_healing c3_err c3_hctx).1

def c3_ss : List Strategy := sort_strategies_desc (pattern_strategies c3_err.pattern)

/-- Witness for C3 at a concrete failed critical step of VA01 with draw 0. -/
theorem auto_healing_spec_witness :
    (List.Pairwise (fun s t : Strategy => ((t.success_rate).le s.success_rate) = true) c3_ss
      ∧ c3_ss.Perm (pattern_strategies c3_err.pattern))
    ∧ (∀ j (hj : j < c3_ss.length),
        (∀ i2 (hi2 : i2 < j),
          ((c3_hctx.draws (c3_hctx.didx + i2)).lt
            (c3_ss.get ⟨i2, Nat.lt_trans hi2 hj⟩).success_rate) = false) →
        ((c3_hctx.draws (c3_hctx.didx + j)).lt (c3_ss.get ⟨j, hj⟩).success_rate) = true →
        c3_hr = heal_success_record (c3_ss.get ⟨j, hj⟩) c3_err.pattern c3_err.details)
    ∧ ((∀ i2 (hi2 : i2 < c3_ss.length),
          ((c3_hctx.draws (c3_hctx.didx + i2)).lt (c3_ss.get ⟨i2, hi2⟩).success_rate) = false) →
        c3_hr = heal_failure_record c3_err.pattern c3_err.details)
    ∧ (c3_hr.success = true →
        ∃ (step4 : ExecutionStep) (cur2 : Nat) (ctx2 : SimCtx) (td2 : PyFloat),
          sim_loop ("VA01") default_complexity 6 c1_queued_exec (c3_step :: []) [] 2
              (pf 0 1) 0 c3_ctx =
            sim_loop ("VA01") default_complexity 6
              ({ c1_queued_exec with current_step := 2 + 1, auto_healing := some c3_hr })
              [] ([] ++ [step4]) (2 + 1) td2 cur2 ctx2
          ∧ step4.status = "passed"
          ∧ step4.details = some (c3_err.details ++ " | Auto-healed: " ++ c3_hr.action)
          ∧ step4.error_message = some c3_err.message
          ∧ step4.error_code = some c3_err.code)
    ∧ (c3_hr.success = false →
        (sim_loop ("VA01") default_complexity 6 c1_queued_exec (c3_step :: []) [] 2
            (pf 0 1) 0 c3_ctx).1.status = .failed
        ∧ (sim_loop ("VA01") default_complexity 6 c1_queued_exec (c3_step :: []) [] 2
            (pf 0 1) 0 c3_ctx).1.result = some .failed
        ∧ ∃ step2 : ExecutionStep,
            (sim_loop ("VA01") default_complexity 6 c1_queued_exec (c3_step :: []) [] 2
              (pf 0 1) 0 c3_ctx).1.execution_steps = [] ++ step2 :: []
            ∧ step2.status = "failed"
            ∧ step2.error_message = some c3_err.message
            ∧ step2.error_code = some c3_err.code) :=
  auto_healing_spec ("VA01") default_complexity 6 c1_queued_exec c3_step [] [] 2
    (pf 0 1) 0 c3_ctx c3_err c3_hctx c3_hr c3_ss rfl rfl rfl rfl (by decide)

def ExecutionStatus.isTerminal : ExecutionStatus → Bool
  | .completed | .failed | .cancelled => true
  | .queued | .running => false

/-- The claim C4 invariant on one TestExecution (current_step is a Nat, so
0 ≤ current_step holds by type). -/
def inv_exec (e : TestExecution) : Prop :=
  e.current_step ≤ e.total_steps
  ∧ e.result.isSome = e.status.isTerminal
  ∧ e.end_time.isSome = e.status.isTerminal

/-- Strengthened invariant carried through the induction: the step list
matches total_steps and is non-empty (every generated template has at
least the six base steps). -/
def strong_inv (e : TestExecution) : Prop :=
  inv_exec e ∧ e.total_steps = e.execution_steps.length ∧ 1 ≤ e.total_steps

/-- All executions observable through the agent: the active set's values
followed by the history. -/
def agent_executions (a : TestExecutionAgentState) : List TestExecution :=
  (a.active_executions.map fun kv => kv.2) ++ a.execution_history

def inv_agent (a : TestExecutionAgentState) : Prop :=
  ∀ e ∈ agent_executions a, strong_inv e

def initial_agent : TestExecutionAgentState := {}

/-- Agent states reachable through the (atomic, synchronous) public
operations of the Test Execution Agent, for arbitrary inputs, randomness
and clock. -/
inductive Reachable : TestExecutionAgentState → Prop where
  | init : Reachable initial_agent
  | suite (a : TestExecutionAgentState) (tcs : List TestCase) (ctx : SimCtx) :
      Reachable a → Reachable (execute_test_suite a tcs ctx).1
  | single (a : TestExecutionAgentState) (tc : TestCase) (ctx : SimCtx) :
      Reachable a → Reachable (execute_single_test a tc ctx).1
  | cancel (a : TestExecutionAgentState) (eid : String) (ctx : SimCtx) :
      Reachable a → Reachable (cancel_execution a eid ctx).1

theorem mem_dict_insert {α : Type} {l : List (String × α)} {k : String} {v : α}
    {kv : String × α} (h : kv ∈ dict_insert l k v) : kv = (k, v) ∨ kv ∈ l := by
  induction l with
  | nil => simpa [dict_insert] using h
  | cons hd tl ih =>
    obtain ⟨k1, v1⟩ := hd
    simp only [dict_insert] at h
    by_cases hk : k1 = k
    · rw [if_pos hk] at h
      rcases List.mem_cons.1 h with h | h
      · exact Or.inl h
      · exact Or.inr (List.mem_cons_of_mem _ h)
    · rw [if_neg hk] at h
      rcases List.mem_cons.1 h with h | h
      · exact Or.inr (h ▸ List.mem_cons_self _ _)
      · rcases ih h with h1 | h1
        · exact Or.inl h1
        · exact Or.inr (List.mem_cons_of_mem _ h1)

theorem mem_dict_erase {α : Type} {l : List (String × α)} {k : String}
    {kv : String × α} (h : kv ∈ dict_erase l k) : kv ∈ l := by
  induction l with
  | nil => simpa [dict_erase] using h
  | cons hd tl ih =>
    obtain ⟨k1, v1⟩ := hd
    simp only [dict_erase] at h
    by_cases hk : k1 = k
    · rw [if_pos hk] at h
      exact List.mem_cons_of_mem _ h
    · rw [if_neg hk] at h
      rcases List.mem_cons.1 h with h | h
      · exact h ▸ List.mem_cons_self _ _
      · exact List.mem_cons_of_mem _ (ih h)

theorem dict_erase_dict_insert {α : Type} (l : List (String × α)) (k : String) (v : α) :
    dict_erase (dict_insert l k v) k = dict_erase l k := by
  induction l with
  | nil => simp [dict_insert, dict_erase]
  | cons hd tl ih =>
    obtain ⟨k1, v1⟩ := hd
    by_cases hk : k1 = k
    · simp [dict_insert, dict_erase, hk]
    · simp [dict_insert, dict_erase, hk, ih]

theorem mk_steps_length : ∀ (l : List String) (i : Nat), (mk_steps i l).length = l.length := by
  intro l
  induction l with
  | nil => intro i; rfl
  | cons d ds ih => intro i; simp [mk_steps, ih]

theorem generate_execution_steps_pos (t : String) :
    1 ≤ (generate_execution_steps t).length := by
  unfold generate_execution_steps
  rw [mk_steps_length]
  simp [base_steps]

set_option linter.deprecated false in
theorem sim_loop_spec (txn : String) (cx : Complexity) (nsteps : Nat)
    (pending : List ExecutionStep) (e : TestExecution) (done : List ExecutionStep)
    (i : Nat) (td : PyFloat) (cur : Nat) (ctx : SimCtx) :
    e.status = .running → e.current_step ≤ nsteps → i + pending.length ≤ nsteps →
    ((sim_loop txn cx nsteps e pending done i td cur ctx).1.status = .running
      ∨ ((sim_loop txn cx nsteps e pending done i td cur ctx).1.status = .failed
        ∧ (sim_loop txn cx nsteps e pending done i td cur ctx).1.result = some .failed))
    ∧ (sim_loop txn cx nsteps e pending done i td cur ctx).1.current_step ≤ nsteps
    ∧ (sim_loop txn cx nsteps e pending done i td cur ctx).1.total_steps = e.total_steps
    ∧ (sim_loop txn cx nsteps e pending done i td cur ctx).1.execution_id = e.execution_id
    ∧ (sim_loop txn cx nsteps e pending done i td cur ctx).1.execution_steps.length
        = done.length + pending.length := by
  induction e, pending, done, i, td, cur, ctx using sim_loop.induct txn cx nsteps with
  | case1 e done i td cur ctx =>
    intro hrun hcur _
    exact ⟨Or.inl hrun, hcur, rfl, rfl, rfl⟩
  | case2 e step rest done i td cur ctx e1 u1 ctx1 hd1 bst stt step1 u2 ctx2 hd2 hcond
      u3 ctx3 hd3 err step2 hr ctx4 hheal hsucc step3 e2 step4 ctx5 hstep ih =>
    intro hrun _ hlen
    unfold_let e2 step3 step2 err step1 stt bst e1 at hd1 hd2 hcond hd3 hheal hstep ih ⊢
    have hlen1 : i + (rest.length + 1) ≤ nsteps := by simpa using hlen
    have hcur1 : i + 1 ≤ nsteps := by omega
    have hrest : (i + 1) + rest.length ≤ nsteps := by omega
    obtain ⟨hA, hB, hC, hD, hE⟩ := ih hrun hcur1 hrest
    simp only [sim_loop, hd1, hd2, hcond, hd3, hheal, hsucc, hstep, if_true]
    refine ⟨hA, hB, hC, hD, ?_⟩
    rw [hE]
    simp
    omega
  | case3 e step rest done i td cur ctx u1 ctx1 hd1 step1 u2 ctx2 hd2 hcond
      u3 ctx3 hd3 err hr ctx4 hheal hnsucc =>
    intro hrun _ hlen
    unfold_let err step1 at hd1 hd2 hcond hd3 hheal ⊢
    have hlen1 : i + (rest.length + 1) ≤ nsteps := by simpa using hlen
    have hfalse : hr.success = false := by
      cases h : hr.success
      · rfl
      · exact absurd h hnsucc
    simp only [sim_loop, hd1, hd2, hcond, hd3, hheal, hfalse, if_true,
      Bool.false_eq_true, if_false]
    refine ⟨Or.inr ⟨by simp, by simp⟩, (show i + 1 ≤ nsteps by omega), by simp, by simp,
      by simp⟩
  | case4 e step rest done i td cur ctx e1 u1 ctx1 hd1 bst stt step1 u2 ctx2 hd2 hncond
      step2 step4 ctx5 hstep ih =>
    intro hrun _ hlen
    unfold_let step2 step1 stt bst e1 at hd1 hd2 hncond hstep ih ⊢
    have hlen1 : i + (rest.length + 1) ≤ nsteps := by simpa using hlen
    have hcur1 : i + 1 ≤ nsteps := by omega
    have hrest : (i + 1) + rest.length ≤ nsteps := by omega
    obtain ⟨hA, hB, hC, hD, hE⟩ := ih hrun hcur1 hrest
    simp only [sim_loop, hd1, hd2, hncond, hstep, Bool.false_eq_true, if_false]
    refine ⟨hA, hB, hC, hD, ?_⟩
    rw [hE]
    simp
    omega

theorem simulate_body_with_spec (cx : Complexity) (a : TestExecutionAgentState)
    (e : TestExecution) (ctx : SimCtx)
    (hrun : e.status = .running) (hcur : e.current_step ≤ e.total_steps)
    (hlen : e.total_steps = e.execution_steps.length) (hpos : 1 ≤ e.total_steps) :
    (simulate_body_with cx a e ctx).1.execution_queue = a.execution_queue
    ∧ (simulate_body_with cx a e ctx).1.max_concurrent_executions
        = a.max_concurrent_executions
    ∧ (simulate_body_with cx a e ctx).1.active_executions
        = dict_erase a.active_executions e.execution_id
    ∧ ∃ efin : TestExecution,
        (simulate_body_with cx a e ctx).1.execution_history
          = a.execution_history ++ [efin]
        ∧ strong_inv efin := by
  have hc2 : e.current_step ≤ e.execution_steps.length := hlen ▸ hcur
  have hl2 : (0 : Nat) + e.execution_steps.length ≤ e.execution_steps.length := by omega
  obtain ⟨hA, hB, hC, hD, hE⟩ := sim_loop_spec e.transaction cx e.execution_steps.length
    e.execution_steps e [] 0 (pf 0 1) ctx.clock ({ ctx with clock := ctx.clock + 1 })
    hrun hc2 hl2
  rcases hA with hA | ⟨hA, hAr⟩
  · simp only [simulate_body_with, SimCtx.now, hA, if_true]
    refine ⟨trivial, trivial, ?_, ⟨_, rfl, ?_⟩⟩
    · rw [hD]
    · refine ⟨⟨?_, ?_, ?_⟩, ?_, ?_⟩
      · simpa [hC] using hB.trans_eq hlen.symm
      · simp [ExecutionStatus.isTerminal]
      · simp [ExecutionStatus.isTerminal]
      · simp [hC, hE, hlen]
      · simp [hC]
        omega
  · simp only [simulate_body_with, SimCtx.now, hA]
    simp only [show (ExecutionStatus.failed = ExecutionStatus.running) = False by simp,
      if_false]
    refine ⟨trivial, trivial, ?_, ⟨_, rfl, ?_⟩⟩
    · rw [hD]
    · refine ⟨⟨?_, ?_, ?_⟩, ?_, ?_⟩
      · simpa [hC] using hB.trans_eq hlen.symm
      · simp [ExecutionStatus.isTerminal, hA, hAr]
      · simp [ExecutionStatus.isTerminal, hA]
      · simp [hC, hE, hlen]
      · simp [hC]
        omega

theorem simulate_body_spec (a : TestExecutionAgentState) (e : TestExecution) (ctx : SimCtx)
    (hrun : e.status = .running) (hcur : e.current_step ≤ e.total_steps)
    (hlen : e.total_steps = e.execution_steps.length) (hpos : 1 ≤ e.total_steps) :
    (simulate_body a e ctx).1.execution_queue = a.execution_queue
    ∧ (simulate_body a e ctx).1.max_concurrent_executions = a.max_concurrent_executions
    ∧ (simulate_body a e ctx).1.active_executions
        = dict_erase a.active_executions e.execution_id
    ∧ ∃ efin : TestExecution,
        (simulate_body a e ctx).1.execution_history = a.execution_history ++ [efin]
        ∧ strong_inv efin :=
  simulate_body_with_spec _ a e ctx hrun hcur hlen hpos

theorem inv_agent_iff (a : TestExecutionAgentState) : inv_agent a ↔
    (∀ kv ∈ a.active_executions, strong_inv kv.2)
    ∧ (∀ e ∈ a.execution_history, strong_inv e) := by
  unfold inv_agent agent_executions
  constructor
  · intro h
    exact ⟨fun kv hkv => h _ (List.mem_append_left _ (List.mem_map_of_mem _ hkv)),
           fun e he => h e (List.mem_append_right _ he)⟩
  · rintro ⟨h1, h2⟩ e he
    rcases List.mem_append.1 he with he | he
    · obtain ⟨kv, hkv, rfl⟩ := List.mem_map.1 he
      exact h1 kv hkv
    · exact h2 e he


theorem process_queue_inv : ∀ (fuel : Nat) (a : TestExecutionAgentState) (ctx : SimCtx),
    inv_agent a → inv_agent (process_execution_queue fuel a ctx).1 := by
  intro fuel a ctx
  induction fuel, a, ctx using process_execution_queue.induct with
  | case1 a ctx =>
    intro h
    simpa [process_execution_queue] using h
  | case2 a ctx n hq =>
    intro h
    simpa [process_execution_queue, hq] using h
  | case3 a ctx fuel1 eid rest hq hcap a1 ex hfind a2 e1 a3 r ih =>
    intro h
    have hfind2 : List.find? (fun ex2 => ex2.execution_id == eid) a.execution_history
        = some ex := hfind
    have hid : ex.execution_id = eid := by
      simpa using List.find?_some hfind2
    have hex_inv : strong_inv ex :=
      ((inv_agent_iff a).1 h).2 ex (List.mem_of_find?_eq_some hfind2)
    obtain ⟨hq1, hm1, hact, efin, hhist, hefin⟩ :=
      simulate_body_spec a3 e1 ctx rfl hex_inv.2.2 hex_inv.2.1 hex_inv.2.2
    have hr1 : inv_agent (simulate_body a3 e1 ctx).1 := by
      rw [inv_agent_iff]
      constructor
      · intro kv hkv
        rw [hact] at hkv
        have h5 : dict_erase a3.active_executions e1.execution_id
            = dict_erase a.active_executions eid := by
          show dict_erase (dict_insert (dict_insert a.active_executions eid ex) eid e1)
            ex.execution_id = dict_erase a.active_executions eid
          rw [hid, dict_erase_dict_insert, dict_erase_dict_insert]
        rw [h5] at hkv
        exact ((inv_agent_iff a).1 h).1 kv (mem_dict_erase hkv)
      · intro e2 he2
        rw [hhist] at he2
        rcases List.mem_append.1 he2 with h2 | h2
        · exact ((inv_agent_iff a).1 h).2 e2 h2
        · have h3 : e2 = efin := by simpa using h2
          rw [h3]
          exact hefin
    have hres := ih hr1
    unfold process_execution_queue
    simp only [hq, if_pos hcap]
    rw [hfind2]
    exact hres
  | case4 a ctx fuel1 eid rest hq hcap a1 hfind ih =>
    intro h
    have hfind2 : List.find? (fun ex2 => ex2.execution_id == eid) a.execution_history
        = none := hfind
    have hres := ih h
    unfold process_execution_queue
    simp only [hq, if_pos hcap]
    rw [hfind2]
    exact hres
  | case5 a ctx fuel1 eid rest hq hcap =>
    intro h
    unfold process_execution_queue
    simp only [hq, if_neg hcap]
    exact h

theorem start_execution_inv (fuel : Nat) (a : TestExecutionAgentState) (e : TestExecution)
    (ctx : SimCtx) (h : inv_agent a)
    (hlen : e.total_steps = e.execution_steps.length) (hpos : 1 ≤ e.total_steps) :
    inv_agent (start_execution fuel a e ctx).1 := by
  unfold start_execution simulate_sap_execution
  apply process_queue_inv
  obtain ⟨hq1, hm1, hact, efin, hhist, hefin⟩ := simulate_body_spec
    ({ a with
        active_executions := dict_insert a.active_executions e.execution_id
          ({ e with status := ExecutionStatus.running, current_step := 1 }) } :
      TestExecutionAgentState)
    ({ e with status := ExecutionStatus.running, current_step := 1 }) ctx
    rfl hpos hlen hpos
  rw [inv_agent_iff]
  constructor
  · intro kv hkv
    rw [hact] at hkv
    have h5 : dict_erase
        ({ a with
            active_executions := dict_insert a.active_executions e.execution_id
              ({ e with status := ExecutionStatus.running, current_step := 1 }) } :
          TestExecutionAgentState).active_executions
        ({ e with status := ExecutionStatus.running, current_step := 1 } : TestExecution).execution_id
        = dict_erase a.active_executions e.execution_id := by
      show dict_erase (dict_insert a.active_executions e.execution_id
          ({ e with status := ExecutionStatus.running, current_step := 1 }))
          e.execution_id = dict_erase a.active_executions e.execution_id
      rw [dict_erase_dict_insert]
    rw [h5] at hkv
    exact ((inv_agent_iff a).1 h).1 kv (mem_dict_erase hkv)
  · intro e2 he2
    rw [hhist] at he2
    rcases List.mem_append.1 he2 with h2 | h2
    · exact ((inv_agent_iff a).1 h).2 e2 h2
    · have h3 : e2 = efin := by simpa using h2
      rw [h3]
      exact hefin

theorem create_test_execution_spec (a : TestExecutionAgentState) (tc : TestCase)
    (ctx : SimCtx) :
    strong_inv (create_test_execution a tc ctx).1
    ∧ (create_test_execution a tc ctx).1.status = ExecutionStatus.queued
    ∧ (create_test_execution a tc ctx).2.1.active_executions
        = dict_insert a.active_executions (create_test_execution a tc ctx).1.execution_id
            (create_test_execution a tc ctx).1
    ∧ (create_test_execution a tc ctx).2.1.execution_queue = a.execution_queue
    ∧ (create_test_execution a tc ctx).2.1.execution_history = a.execution_history
    ∧ (create_test_execution a tc ctx).2.1.max_concurrent_executions
        = a.max_concurrent_executions := by
  rcases ht : (tc.test_id).orElse fun _ => tc.id with _ | s <;>
  · simp only [create_test_execution, SimCtx.now, SimCtx.randint, ht]
    refine ⟨⟨⟨Nat.zero_le _, by trivial, by trivial⟩, by trivial, ?_⟩, by trivial, by trivial, by trivial, by trivial, by trivial⟩
    exact generate_execution_steps_pos _

theorem create_preserves_inv (a : TestExecutionAgentState) (tc : TestCase) (ctx : SimCtx)
    (h : inv_agent a) : inv_agent (create_test_execution a tc ctx).2.1 := by
  obtain ⟨hsi, _, hact, _, hh, _⟩ := create_test_execution_spec a tc ctx
  rw [inv_agent_iff]
  constructor
  · intro kv hkv
    rw [hact] at hkv
    rcases mem_dict_insert hkv with h1 | h1
    · rw [h1]
      exact hsi
    · exact ((inv_agent_iff a).1 h).1 kv h1
  · intro e2 he2
    rw [hh] at he2
    exact ((inv_agent_iff a).1 h).2 e2 he2

theorem execute_single_test_inv (a : TestExecutionAgentState) (tc : TestCase)
    (ctx : SimCtx) (h : inv_agent a) : inv_agent (execute_single_test a tc ctx).1 := by
  obtain ⟨hsi, hst, hact, hq, hh, hm⟩ := create_test_execution_spec a tc ctx
  have hinv1 := create_preserves_inv a tc ctx h
  unfold execute_single_test
  by_cases hcap : (create_test_execution a tc ctx).2.1.active_executions.length
      < (create_test_execution a tc ctx).2.1.max_concurrent_executions
  · rw [if_pos hcap]
    exact start_execution_inv _ _ _ _ hinv1 hsi.2.1 hsi.2.2
  · rw [if_neg hcap]
    exact hinv1

theorem execute_test_suite_inv : ∀ (tcs : List TestCase) (a : TestExecutionAgentState)
    (ctx : SimCtx), inv_agent a → inv_agent (execute_test_suite a tcs ctx).1 := by
  intro tcs
  induction tcs with
  | nil =>
    intro a ctx h
    simpa [execute_test_suite] using h
  | cons tc rest ih =>
    intro a ctx h
    obtain ⟨hsi, hst, hact, hq, hh, hm⟩ := create_test_execution_spec a tc ctx
    have hinv1 := create_preserves_inv a tc ctx h
    unfold execute_test_suite
    by_cases hcap : (create_test_execution a tc ctx).2.1.max_concurrent_executions
        ≤ (create_test_execution a tc ctx).2.1.active_executions.length
    · rw [if_pos hcap]
      exact ih _ _ hinv1
    · rw [if_neg hcap]
      exact ih _ _ (start_execution_inv _ _ _ _ hinv1 hsi.2.1 hsi.2.2)

theorem cancel_execution_inv (a : TestExecutionAgentState) (eid : String) (ctx : SimCtx)
    (h : inv_agent a) : inv_agent (cancel_execution a eid ctx).1 := by
  unfold cancel_execution
  by_cases hq : eid ∈ a.execution_queue
  · rw [if_pos hq]
    exact h
  · rw [if_neg hq]
    rcases hl : dict_lookup a.active_executions eid with _ | e
    · simp only [hl]
      exact h
    · simp only [hl, SimCtx.now]
      have he_inv : strong_inv e :=
        ((inv_agent_iff a).1 h).1 _ (dict_lookup_mem hl)
      rw [inv_agent_iff]
      constructor
      · intro kv hkv
        exact ((inv_agent_iff a).1 h).1 kv (mem_dict_erase hkv)
      · intro e2 he2
        rcases List.mem_append.1 he2 with h2 | h2
        · exact ((inv_agent_iff a).1 h).2 _ h2
        · have h3 : e2 = { e with
              status := ExecutionStatus.cancelled,
              result := some TestResult.skipped,
              end_time := some ctx.clock } := by
            simpa using h2
          rw [h3]
          exact ⟨⟨he_inv.1.1, by simp [ExecutionStatus.isTerminal],
            by simp [ExecutionStatus.isTerminal]⟩, he_inv.2.1, he_inv.2.2⟩

theorem reachable_inv (a : TestExecutionAgentState) (ha : Reachable a) : inv_agent a := by
  induction ha with
  | init =>
    intro e2 he2
    simp [initial_agent, agent_executions] at he2
  | suite a tcs ctx _ ih => exact execute_test_suite_inv tcs a ctx ih
  | single a tc ctx _ ih => exact execute_single_test_inv a tc ctx ih
  | cancel a eid ctx _ ih => exact cancel_execution_inv a eid ctx ih

/-- Claim C4: in every agent state reachable through the Test Execution
Agent's operations, every observable TestExecution (active or in the
history) satisfies: current_step never exceeds total_steps, result is set
exactly when the status is terminal (completed, failed or cancelled),
end_time is set exactly when the status is terminal, and result is None
while the status is queued or running. -/
theorem execution_state_invariants (a : TestExecutionAgentState) (ha : Reachable a)
    (e : TestExecution) (he : e ∈ agent_executions a) :
    e.current_step ≤ e.total_steps
    ∧ e.result.isSome = e.status.isTerminal
    ∧ e.end_time.isSome = e.status.isTerminal
    ∧ ((e.status = ExecutionStatus.queued ∨ e.status = ExecutionStatus.running)
        → e.result = none) := by
  obtain ⟨⟨h1, h2, h3⟩, _, _⟩ := reachable_inv a ha e he
  refine ⟨h1, h2, h3, ?_⟩
  intro hst
  rcases hr : e.result with _ | v
  · rfl
  · exfalso
    rw [hr] at h2
    rcases hst with hst | hst <;>
    · rw [hst] at h2
      simp [ExecutionStatus.isTerminal] at h2

theorem headD_mem {α : Type} (l : List α) (d : α) (h : l ≠ []) : l.headD d ∈ l := by
  cases l with
  | nil => exact absurd rfl h
  | cons x xs => exact List.mem_cons_self _ _

def c4_tc : TestCase := { transaction_code := some ("ZZ99") }

def c4_ctx : SimCtx := { draws := fun _ => pf 1 2, nat_draws := fun _ => 0 }

def c4_agent : TestExecutionAgentState := (execute_single_test initial_agent c4_tc c4_ctx).1

def c4_dummy : TestExecution :=
  { execution_id := "d", test_case_id := "d", test_name := "d", transaction := "d",
    status := ExecutionStatus.queued, result := none, start_time := 0 }

theorem execution_state_invariants_witness :
    ((agent_executions c4_agent).headD c4_dummy).current_step
        ≤ ((agent_executions c4_agent).headD c4_dummy).total_steps
    ∧ ((agent_executions c4_agent).headD c4_dummy).result.isSome
        = ((agent_executions c4_agent).headD c4_dummy).status.isTerminal
    ∧ ((agent_executions c4_agent).headD c4_dummy).end_time.isSome
        = ((agent_executions c4_agent).headD c4_dummy).status.isTerminal
    ∧ ((((agent_executions c4_agent).headD c4_dummy).status = ExecutionStatus.queued
        ∨ ((agent_executions c4_agent).headD c4_dummy).status = ExecutionStatus.running)
        → ((agent_executions c4_agent).headD c4_dummy).result = none) :=
  execution_state_invariants c4_agent
    (Reachable.single initial_agent c4_tc c4_ctx Reachable.init) _
    (headD_mem _ _ (by decide))
